import Mathlib

/-!
Formal model of the SIPREMS demand-forecast training and serving pipeline
(`backend/model_trainer.py`, `backend/main.py`, `backend/logic.py`,
`backend/config.py`), together with theorems settling the specification's
claims about it.

Modelling conventions:
* Dates (`ds`) are integers (day numbers); daily frames are date-sorted lists.
* Exact rationals stand in for floats wherever the code's arithmetic is
  field arithmetic; real numbers (`ℝ`) are used where the code applies
  transcendental functions (`log1p`, `expm1`, square roots).
* A z-score comparison `|y - mean| / std > t` (with `std = sqrt var > 0`,
  `t ≥ 0`) is expressed by the equivalent squared comparison
  `(y - mean)^2 > t^2 * var` when it must stay inside ℚ.
* pandas `Series.std`/`Series.var` use `ddof = 1` (sample statistics);
  `numpy.ndarray.std` uses `ddof = 0`. Both are modelled accordingly.
-/

namespace Siprems


/-! ## Configuration constants (backend/config.py) -/

/-- `TRAINING_WINDOW_DAYS = 365` (config.py line 21). -/
def TRAINING_WINDOW_DAYS : Nat := 365

/-- `MIN_TRAINING_DAYS = 30` (config.py line 22). -/
def MIN_TRAINING_DAYS : Nat := 30

/-- `VALIDATION_DAYS = 14` (config.py line 23). -/
def VALIDATION_DAYS : Nat := 14

/-- `SHORT_DATA_THRESHOLD = 90` (config.py line 26). -/
def SHORT_DATA_THRESHOLD : Nat := 90

/-- `MEDIUM_DATA_THRESHOLD = 180` (config.py line 27). -/
def MEDIUM_DATA_THRESHOLD : Nat := 180

/-- `MIN_ACCURACY_THRESHOLD = 82.0` (config.py line 33). -/
def MIN_ACCURACY_THRESHOLD : ℚ := 82

/-- `MAX_MODEL_AGE_DAYS = 7` (config.py line 37). -/
def MAX_MODEL_AGE_DAYS : Int := 7

/-- `MIN_NON_ZERO_DAYS_RATIO = 0.7` (config.py line 154). -/
def minNonZeroDaysRatio : ℚ := 7 / 10

/-- `MAX_OUTLIER_RATIO = 0.05` (config.py line 155).  Imported by
`model_trainer.py` line 30. -/
def maxOutlierRatio : ℚ := 1 / 20

/-- `OUTLIER_Z_SCORE_THRESHOLD = 3.5` (config.py line 156). -/
def OUTLIER_Z_SCORE_THRESHOLD : ℚ := 7 / 2

/-- `OUTLIER_HANDLING = "clip"` (config.py line 159). -/
def OUTLIER_HANDLING : String := "clip"

/-- `OUTLIER_CLIP_PERCENTILE = (1, 99)` (config.py line 160). -/
def OUTLIER_CLIP_PERCENTILE : ℚ × ℚ := (1, 99)

/-- `APPLY_SMOOTHING = True` (config.py line 163). -/
def APPLY_SMOOTHING : Bool := true

/-- `SMOOTHING_WINDOW = 3` (config.py line 164). -/
def SMOOTHING_WINDOW : Nat := 3

/-- `USE_LOG_TRANSFORM = True` (config.py line 167). -/
def USE_LOG_TRANSFORM : Bool := true

/-! ## List statistics over ℚ

`listMean l` models `Series.mean()`; `sampleVar l` models `Series.var()`
(pandas default `ddof = 1`).  The sample standard deviation is
`Real.sqrt (sampleVar l)`; where the code compares a standard deviation we
use the equivalent squared comparison (see the header note). -/

/-- Mean of a list of rationals; `[] ↦ 0` (division by zero in ℚ). -/
def listMean (l : List ℚ) : ℚ := l.sum / l.length

/-- Sample variance (`ddof = 1`), the square of `Series.std()`. -/
def sampleVar (l : List ℚ) : ℚ :=
  (l.map (fun x => (x - listMean l) ^ 2)).sum / ((l.length : ℚ) - 1)

/-! ## Daily observation rows -/

/-- One row of the daily sales frame: a date (day number) and the target
`y`.  The auxiliary regressor columns (`transactions_count`, intensities,
calendar flags) are independent of the target pipeline steps modelled here
and are omitted. -/
structure Row where
  ds : Int
  y : ℚ
deriving DecidableEq, Repr

/-! ## `ModelTrainer.add_lag_features` (model_trainer.py lines 79-103)

The input frame is date-sorted (`df.sort_values("ds")`; the SQL fetch
already orders by `ds`).  Columns are computed positionally on the sorted
list of targets:

* `lag_7` at position `i` is `y[i-7]` (NaN for `i < 7`);
* `rolling_mean_7`/`rolling_std_7` at position `i` aggregate the shifted
  window `y[i-7..i-1]` and need at least 3 observations (`min_periods=3`),
  i.e. they are NaN for `i < 3`;
* each column's NaNs are then filled with that column's mean over its
  non-NaN entries (0 if the column is all-NaN).

`rolling_std_7` is `sqrt` of the sample variance of the window, which is
irrational in general; the model stores the squared column
`rolling_std_7_sq` instead.  On unfilled entries (`i ≥ 3`) the true column
is obtained by postcomposing with the injective `Real.sqrt`, so equality
and leakage statements about unfilled `rolling_std_7` entries are exactly
equality statements about `rolling_std_7_sq`.  (The NaN fill of the true
column averages square roots, which the squared model does not reproduce;
no theorem below touches a filled `rolling_std_7` entry.) -/

/-- The backward window `y[max 0 (i-7) .. i-1]` seen by the shifted
7-day rolling aggregations at position `i`. -/
def window7 (ys : List ℚ) (i : Nat) : List ℚ := (ys.take i).drop (i - 7)

/-- `df["y"].shift(7)` as an optional column (`none` = NaN). -/
def lag7Col (ys : List ℚ) : List (Option ℚ) :=
  (List.range ys.length).map (fun i => if 7 ≤ i then ys[i - 7]? else none)

/-- `df["y"].shift(1).rolling(window=7, min_periods=3).mean()`. -/
def rollMeanCol (ys : List ℚ) : List (Option ℚ) :=
  (List.range ys.length).map (fun i =>
    let w := window7 ys i
    if 3 ≤ w.length then some (listMean w) else none)

/-- The square of `df["y"].shift(1).rolling(window=7, min_periods=3).std()`
(see the note above). -/
def rollVarCol (ys : List ℚ) : List (Option ℚ) :=
  (List.range ys.length).map (fun i =>
    let w := window7 ys i
    if 3 ≤ w.length then some (sampleVar w) else none)

/-- `df[col].fillna(df[col].mean() if df[col].notna().any() else 0)`
(model_trainer.py line 100). -/
def fillWithColMean (col : List (Option ℚ)) : List ℚ :=
  let vals := col.filterMap id
  let m := if vals.isEmpty then 0 else listMean vals
  col.map (fun o => o.getD m)

/-- The frame produced by `add_lag_features`: the input rows plus the three
filled feature columns. -/
structure LagFrame where
  rows : List Row
  lag_7 : List ℚ
  rolling_mean_7 : List ℚ
  rolling_std_7_sq : List ℚ
deriving DecidableEq, Repr

/-- `ModelTrainer.add_lag_features` on a date-sorted frame. -/
def add_lag_features (df : List Row) : LagFrame :=
  let ys := df.map Row.y
  { rows := df
    lag_7 := fillWithColMean (lag7Col ys)
    rolling_mean_7 := fillWithColMean (rollMeanCol ys)
    rolling_std_7_sq := fillWithColMean (rollVarCol ys) }

/-- The triple of lag/rolling feature values at row position `i`
(`none` components when `i` is out of range). -/
def featuresAt (F : LagFrame) (i : Nat) : Option ℚ × Option ℚ × Option ℚ :=
  (F.lag_7[i]?, F.rolling_mean_7[i]?, F.rolling_std_7_sq[i]?)

/-- A frame is strictly date-sorted (dates ascending, no duplicates). -/
def dsSorted (df : List Row) : Prop :=
  df.Pairwise (fun a b => a.ds < b.ds)

instance decDsSorted (df : List Row) : Decidable (dsSorted df) :=
  inferInstanceAs (Decidable (df.Pairwise _))

/-! ### Claim C1: leakage through the NaN backfill

On rows with fewer than 7 predecessors the lag/rolling columns are NaN and
are backfilled with the column mean, which is computed over the whole
frame — a function of target values at *later* dates.  Two frames that
agree strictly before a date `D` near the start of the window can
therefore disagree on the features at `D`.  Frames `c1A`/`c1B` below agree
on every row before date 1 but produce different `lag_7` values at date 1:
in `c1B` the backfill averages `y` at dates 0 and 1 (the defined `lag_7`
entries sit at positions 7 and 8), and `y` at date 1 differs. -/

/-- 9-day frame, constant zero target. -/
def c1A : List Row :=
  [⟨0, 0⟩, ⟨1, 0⟩, ⟨2, 0⟩, ⟨3, 0⟩, ⟨4, 0⟩, ⟨5, 0⟩, ⟨6, 0⟩, ⟨7, 0⟩, ⟨8, 0⟩]

/-- Same dates as `c1A`, same row before date 1, different target from
date 1 on. -/
def c1B : List Row :=
  [⟨0, 0⟩, ⟨1, 14⟩, ⟨2, 0⟩, ⟨3, 0⟩, ⟨4, 0⟩, ⟨5, 0⟩, ⟨6, 0⟩, ⟨7, 0⟩, ⟨8, 0⟩]

/-! ## Claim C2: log-transform / inverse-transform symmetry

Training transforms the target with `np.log1p` (model_trainer.py line
378); every prediction path inverts with
`np.expm1(yhat.clip(-10, 20))` (model_trainer.py lines 494-507, main.py
lines 2394-2401, logic.py lines 269-275). -/

noncomputable section

/-- `np.log1p(x) = log(1 + x)`. -/
def np_log1p (x : ℝ) : ℝ := Real.log (1 + x)

/-- `np.expm1(x) = exp(x) - 1`. -/
def np_expm1 (x : ℝ) : ℝ := Real.exp x - 1

/-- `np.clip(x, lo, hi)` / `Series.clip(lo, hi)`: lower bound applied
first, then the upper bound. -/
def np_clip (x lo hi : ℝ) : ℝ := min (max x lo) hi

end

/-! ## The persisted model store (claims C3, C7, C10)

`ModelTrainer.save_model` / `load_model` (model_trainer.py lines
527-575), `save_model_with_meta` / `load_model_with_meta` (main.py lines
1739-1792; logic.py lines 195-234 is the same scheme).  Per store there
are two files: `store_<id>.json` (the serialized Prophet artifact,
modelled as an opaque version number) and `store_<id>_meta.json`.  The
trainer's `save_model` first copies the current pair into `history/`
(`_archive_model`; the copies do not affect the current pair and are not
modelled), then opens and rewrites the model file, then the metadata
file — two separate in-place writes, no write-then-rename. -/

/-- The metadata fields read by `should_retrain` and the prediction
paths, as stored on disk.  `log_transform` is `Option` because the JSON
key may be absent; `saved_at`/`end_date` are day numbers standing for the
ISO timestamps (`none` = missing/unparseable key). -/
structure StoredMeta where
  model_version : Nat
  log_transform : Option Bool
  saved_at : Option Int
  accuracy : Option ℚ
  end_date : Option Int
deriving DecidableEq, Repr

/-- A metadata file on disk: readable JSON or an unparseable file (the
`json.load` `except` branch). -/
inductive MetaFile
  | readable (m : StoredMeta)
  | unreadable
deriving DecidableEq, Repr

/-- The per-store slice of the model directory. -/
structure ModelStore where
  modelFile : Option Nat
  metaFile : Option MetaFile
deriving DecidableEq, Repr

/-- Metadata as returned by `load_model`, after the
`if 'log_transform' not in metadata: metadata['log_transform'] = True`
normalization. -/
structure LoadedMeta where
  model_version : Option Nat
  log_transform : Bool
  saved_at : Option Int
  accuracy : Option ℚ
  end_date : Option Int
deriving DecidableEq, Repr

/-- The fallback metadata `{'log_transform': True}` used when the model
file exists but the metadata file is missing or unreadable
(model_trainer.py lines 571-573, main.py lines 1786-1790, logic.py lines
230-232). -/
def fallbackMeta : LoadedMeta :=
  { model_version := none
    log_transform := true
    saved_at := none
    accuracy := none
    end_date := none }

/-- Normalization of successfully parsed metadata. -/
def loadedOf (m : StoredMeta) : LoadedMeta :=
  { model_version := some m.model_version
    log_transform := m.log_transform.getD true
    saved_at := m.saved_at
    accuracy := m.accuracy
    end_date := m.end_date }

/-- `ModelTrainer.load_model` (model_trainer.py lines 547-575);
`load_model_with_meta` (main.py lines 1751-1792, logic.py lines 195-234)
behaves identically on these fields. -/
def load_model (fs : ModelStore) : Option Nat × Option LoadedMeta :=
  match fs.modelFile with
  | none => (none, none)
  | some v =>
    match fs.metaFile with
    | none => (some v, some fallbackMeta)
    | some MetaFile.unreadable => (some v, some fallbackMeta)
    | some (MetaFile.readable m) => (some v, some (loadedOf m))

/-- Write the model artifact file in place
(`open(model_path, "w")` ... `f.write(model_to_json(model))`). -/
def writeModelFile (v : Nat) (fs : ModelStore) : ModelStore :=
  { fs with modelFile := some v }

/-- Write the metadata file in place (`json.dump(metadata, f)`). -/
def writeMetaFile (m : StoredMeta) (fs : ModelStore) : ModelStore :=
  { fs with metaFile := some (MetaFile.readable m) }

/-- `save_model` as its sequence of file-system mutations: model file
first, then metadata file (model_trainer.py lines 536-540; identically
main.py lines 1744-1749). -/
def save_model_steps (v : Nat) (m : StoredMeta) : List (ModelStore → ModelStore) :=
  [writeModelFile v, writeMetaFile m]

/-- All states reachable if the process crashes after any prefix of the
write sequence. -/
def crash_states : List (ModelStore → ModelStore) → ModelStore → List ModelStore
  | [], fs => [fs]
  | step :: rest, fs => fs :: crash_states rest (step fs)

/-- `load` returns a matched pair: whenever both a model and stored
metadata come back, the metadata belongs to that model version. -/
def pairConsistentB (fs : ModelStore) : Bool :=
  match load_model fs with
  | (some v, some m) => m.model_version == some v
  | _ => true

def pairConsistent (fs : ModelStore) : Prop := pairConsistentB fs = true

/-- The atomicity property claimed for `save_model`: every crash point
leaves `load` returning a version-matched (fully-previous or fully-new)
pair. -/
def atomicSaveOk (fs : ModelStore) (v : Nat) (m : StoredMeta) : Prop :=
  ∀ s ∈ crash_states (save_model_steps v m) fs, pairConsistent s

instance decAtomicSaveOk (fs : ModelStore) (v : Nat) (m : StoredMeta) :
    Decidable (atomicSaveOk fs v m) :=
  inferInstanceAs
    (Decidable (∀ s ∈ crash_states (save_model_steps v m) fs, pairConsistentB s = true))

/-- Well-formed stored metadata for version `n` (used in examples). -/
def metaV (n : Nat) : StoredMeta :=
  { model_version := n
    log_transform := some true
    saved_at := some 0
    accuracy := some 90
    end_date := some 0 }

/-! ## Claim C7: `ModelTrainer.should_retrain` (model_trainer.py lines 625-645) -/

/-- `ModelTrainer._get_model_age_days` (model_trainer.py lines 618-623):
days since `saved_at`, or 999 when the key is missing/unparseable. -/
def get_model_age_days (today : Int) (meta : LoadedMeta) : Int :=
  match meta.saved_at with
  | some s => today - s
  | none => 999

/-- `ModelTrainer.should_retrain`.  `today` is the current WIB date (day
number).  The `Except.error` value models the uncaught `ValueError` from
`datetime.fromisoformat(metadata.get("end_date", ""))` when the key is
missing.  Numeric rendering in the reason strings uses Lean's `toString`
(Python renders the same numbers as floats, e.g. `82.0`). -/
def should_retrain (fs : ModelStore) (today : Int) : Except Unit (Bool × String) :=
  match load_model fs with
  | (none, _) => Except.ok (true, "No existing model")
  | (some _, none) => Except.ok (true, "No existing model")
  | (some _, some meta) =>
    let model_age := get_model_age_days today meta
    if MAX_MODEL_AGE_DAYS ≤ model_age then
      Except.ok (true, "Model age " ++ toString model_age ++ " >= " ++
        toString MAX_MODEL_AGE_DAYS ++ " days")
    else
      let accuracy := meta.accuracy.getD 0
      if accuracy < MIN_ACCURACY_THRESHOLD then
        Except.ok (true, "Accuracy " ++ toString accuracy ++ "% < " ++
          toString MIN_ACCURACY_THRESHOLD ++ "%")
      else
        match meta.end_date with
        | none => Except.error ()
        | some e =>
          if 3 < today - e then
            Except.ok (true, "Data is " ++ toString (today - e) ++ " days old")
          else
            Except.ok (false, "Model up-to-date")

/-! ## Claim C10: metadata fallback forces the `expm1` inverse transform -/

/-- `use_log_transform = meta and meta.get('log_transform', False)`
(main.py line 2351); `metadata.get('log_transform', False)` (logic.py
line 270). -/
def predict_applies_expm1 (meta : Option LoadedMeta) : Bool :=
  match meta with
  | some m => m.log_transform
  | none => false

noncomputable section

/-- The inverse-transform step of the prediction paths (main.py lines
2394-2401, logic.py lines 270-275) applied to a single `yhat` value. -/
def predict_transform (meta : Option LoadedMeta) (yhat : ℝ) : ℝ :=
  if predict_applies_expm1 meta then np_expm1 (np_clip yhat (-10) 20) else yhat

end

/-! ## Claim C4: scaler transform and zero scales

Three implementations apply persisted scaler parameters:
`apply_scaler_to_df` (main.py lines 200-299), `ModelTrainer.apply_scaler`
(model_trainer.py lines 211-226) and `logic.apply_scaler` (logic.py lines
60-83); the latter two have identical bodies.  Frames are modelled as
column maps over exact rationals (no NaN/Inf values exist in the model,
so the NaN-repair steps of `apply_scaler_to_df` never fire). -/

/-- A data frame, viewed as its column map (column name ↦ column). -/
def Frame := String → Option (List ℚ)

/-- Persisted scaler parameters (`scaler_params` in the metadata):
`columns`, `mean_`, `scale_` (logic.py lines 50-55). -/
structure ScalerParams where
  columns : List String
  mean_ : List (String × ℚ)
  scale_ : List (String × ℚ)

/-- Dictionary lookup: first binding of the key, if any. -/
def dictGet? (d : List (String × ℚ)) (k : String) : Option ℚ :=
  (d.find? (fun p => p.1 == k)).map (fun p => p.2)

/-- Replace one column of a frame. -/
def setCol (df : Frame) (c : String) (v : List ℚ) : Frame :=
  fun c' => if c' = c then some v else df c'

/-- One iteration of the `for col in cols_to_scale` loop of
`ModelTrainer.apply_scaler` (model_trainer.py lines 219-224) and of
`logic.apply_scaler` (logic.py lines 76-81): a column is scaled by
`(x - mean) / scale` only when it is present, has both parameters and the
scale is strictly positive; otherwise the column is left untouched and
nothing is logged. -/
def scalerStep (sp : ScalerParams) (acc : Frame) (col : String) : Frame :=
  match acc col, dictGet? sp.mean_ col, dictGet? sp.scale_ col with
  | some x, some mean, some scale =>
    if 0 < scale then setCol acc col (x.map (fun v => (v - mean) / scale)) else acc
  | _, _, _ => acc

/-- `ModelTrainer.apply_scaler` = `logic.apply_scaler`. -/
def apply_scaler (df : Frame) (sp : ScalerParams) : Frame :=
  sp.columns.foldl (scalerStep sp) df

/-- One iteration of the scaling loop of `apply_scaler_to_df` (main.py
lines 251-287): auto-fill of a missing column with the training mean
(line 258), then `(x - mean) / scale` for a positive scale (lines
273-275), or the constant-0.0 column for `scale ≤ 0` with the scaler
error logged (lines 276-278).  The logged zero-scale warning is modelled
by recording the column name in the second component. -/
def scalerStepW (nRows : Nat) (sp : ScalerParams) (st : Frame × List String)
    (col : String) : Frame × List String :=
  let mean := (dictGet? sp.mean_ col).getD 0
  let scale := (dictGet? sp.scale_ col).getD 1
  let x := match st.1 col with
    | some x => x
    | none => List.replicate nRows mean
  if 0 < scale then (setCol st.1 col (x.map (fun v => (v - mean) / scale)), st.2)
  else (setCol st.1 col (List.replicate x.length 0), st.2 ++ [col])

/-- `apply_scaler_to_df` (main.py lines 200-299): validation that every
configured column has both parameters — raising `ValueError` otherwise
(lines 239-246) — then the scaling loop.  `nRows` is the frame's row
count (the broadcast length of `df[col] = mean_val`). -/
def apply_scaler_to_df (nRows : Nat) (df : Frame) (sp : ScalerParams) :
    Except String (Frame × List String) :=
  if (sp.columns.filter (fun c => (dictGet? sp.mean_ c).isNone)) ≠ [] ∨
     (sp.columns.filter (fun c => (dictGet? sp.scale_ c).isNone)) ≠ [] then
    Except.error "SCALER ERROR: Incomplete scaler_params"
  else
    Except.ok (sp.columns.foldl (scalerStepW nRows sp) (df, []))

/-- Column map and parameters exhibiting the counterexample: column "a"
with value `[5]`, stored mean 1, stored scale 0. -/
def c4df : Frame := fun c => if c = "a" then some [5] else none

def c4sp : ScalerParams :=
  { columns := ["a"], mean_ := [("a", 1)], scale_ := [("a", 0)] }

/-! ## Python rounding

Python's `round` rounds half to even.  (On floats the tie is decided on
the binary representation; the model idealizes to exact ties.) -/

/-- `round(x)` to the nearest integer, ties to even. -/
def pyRoundInt (x : ℚ) : ℤ :=
  if x - ⌊x⌋ < 1 / 2 then ⌊x⌋
  else if 1 / 2 < x - ⌊x⌋ then ⌊x⌋ + 1
  else if ⌊x⌋ % 2 = 0 then ⌊x⌋ else ⌊x⌋ + 1

/-- `round(x, d)`. -/
def pyRound (d : Nat) (x : ℚ) : ℚ := (pyRoundInt (x * 10 ^ d) : ℚ) / 10 ^ d

/-! ## Data-quality validation (model_trainer.py lines 274-304) -/

/-- The `quality_report` dictionary assembled by `validate_data_quality`
(outlier entries absent when the sales standard deviation is 0). -/
structure QualityReport where
  total_days : Nat
  non_zero_ratio : ℚ
  outlier_count : Option Nat
  outlier_ratio : Option ℚ
  data_age_days : Int
deriving DecidableEq, Repr

/-- `ModelTrainer.validate_data_quality`.  Raises (`Except.error`) on
fewer than `MIN_TRAINING_DAYS` rows (line 278) or a non-zero-day ratio
below `minNonZeroDaysRatio` (line 287).  The outlier statistics (lines
290-296) are computed — via the squared z-score comparison, see the file
header — and stored in the report only; `maxOutlierRatio` is imported by
model_trainer.py line 30 but appears nowhere else.  `today` is the
current WIB date, used only for the freshness entry. -/
def validate_data_quality (today : Int) (df : List Row) :
    Except String QualityReport :=
  if df.length < MIN_TRAINING_DAYS then
    Except.error "Insufficient data"
  else
    let ys := df.map Row.y
    let non_zero_ratio : ℚ :=
      ((ys.filter (fun y => decide (0 < y))).length : ℚ) / df.length
    if non_zero_ratio < minNonZeroDaysRatio then
      Except.error "Too many zero-sales days"
    else
      let v := sampleVar ys
      let outlier_count :=
        if 0 < v then
          some ((ys.filter (fun y =>
            decide (OUTLIER_Z_SCORE_THRESHOLD ^ 2 * v < (y - listMean ys) ^ 2))).length)
        else none
      Except.ok
        { total_days := df.length
          non_zero_ratio := pyRound 3 non_zero_ratio
          outlier_count := outlier_count
          outlier_ratio :=
            outlier_count.map (fun oc => pyRound 3 ((oc : ℚ) / df.length))
          data_age_days := today - ((df.map Row.ds).max?.getD 0) }

/-! ## Preprocessing: outlier clipping and smoothing
(model_trainer.py lines 129-187) -/

/-- Insert into an ascending list (used to sort values for
`np.percentile`). -/
def insertAsc (x : ℚ) : List ℚ → List ℚ
  | [] => [x]
  | y :: t => if x ≤ y then x :: y :: t else y :: insertAsc x t

/-- Ascending sort of the sample, as `np.percentile` performs
internally. -/
def sortAsc (l : List ℚ) : List ℚ := l.foldr insertAsc []

/-- `np.percentile(l, q)` with the default linear interpolation. -/
def np_percentile (l : List ℚ) (q : ℚ) : ℚ :=
  let s := sortAsc l
  let pos := ((s.length : ℚ) - 1) * q / 100
  let lo := (⌊pos⌋).toNat
  let a := (s[lo]?).getD 0
  let b := (s[lo + 1]?).getD a
  a + (pos - ⌊pos⌋) * (b - a)

/-- `ModelTrainer.handle_outliers` (model_trainer.py lines 129-164).
Under the shipped configuration `OUTLIER_HANDLING = "clip"` the targets
are clamped to the 1st/99th percentile range; the `"remove"` branch drops
rows with squared z-score above `OUTLIER_Z_SCORE_THRESHOLD²` (all rows
kept when the variance is 0, matching the `std > 0` guard). -/
def handle_outliers (df : List Row) : List Row :=
  if OUTLIER_HANDLING = "none" then df
  else if OUTLIER_HANDLING = "clip" then
    let ys := df.map Row.y
    let lower := np_percentile ys OUTLIER_CLIP_PERCENTILE.1
    let upper := np_percentile ys OUTLIER_CLIP_PERCENTILE.2
    df.map (fun r => { r with y := min (max r.y lower) upper })
  else
    let ys := df.map Row.y
    let m := listMean ys
    let v := sampleVar ys
    if 0 < v then
      df.filter (fun r => decide ((r.y - m) ^ 2 ≤ OUTLIER_Z_SCORE_THRESHOLD ^ 2 * v))
    else df

/-- `ModelTrainer.apply_smoothing` on the target column (model_trainer.py
lines 166-187): centred 3-day rolling mean with `min_periods=1` (the
window at position `i` covers positions `max 0 (i-1) .. min (n-1) (i+1)`),
then a rescale so the mean is preserved (skipped when the smoothed mean
is not positive). -/
def apply_smoothing_y (ys : List ℚ) : List ℚ :=
  let sm := (List.range ys.length).map (fun i => listMean ((ys.take (i + 2)).drop (i - 1)))
  let original_mean := listMean ys
  let new_mean := listMean sm
  if 0 < new_mean then sm.map (fun v => v * (original_mean / new_mean)) else sm

/-- The target series after the preprocessing pipeline of `train_model`
(model_trainer.py lines 356-374): outlier handling, then the feature
steps (`add_calendar_features`, `add_lag_features` — which do not touch
`y`), then smoothing.  This is the `y_original` column used for the
volatility statistics and the accuracy calculation. -/
def processed_y (df : List Row) : List ℚ :=
  let ys := (handle_outliers df).map Row.y
  if APPLY_SMOOTHING then apply_smoothing_y ys else ys

/-! ## Adaptive Prophet parameters (config.py lines 55-88,
model_trainer.py lines 61-77) -/

/-- The engine parameters selected per data-length tier.
`yearly_seasonality`/`weekly_seasonality` Fourier-term counts, with
`none` for `False`. -/
structure ProphetParams where
  yearly_seasonality : Option Nat
  weekly_seasonality : Nat
  daily_seasonality : Bool
  seasonality_mode : String
  seasonality_prior_scale : ℚ
  changepoint_prior_scale : ℚ
  changepoint_range : ℚ
  n_changepoints : Nat
deriving DecidableEq, Repr

def PROPHET_PARAMS_SHORT : ProphetParams :=
  { yearly_seasonality := none, weekly_seasonality := 5,
    daily_seasonality := false, seasonality_mode := "multiplicative",
    seasonality_prior_scale := 5, changepoint_prior_scale := 3 / 100,
    changepoint_range := 7 / 10, n_changepoints := 10 }

def PROPHET_PARAMS_MEDIUM : ProphetParams :=
  { yearly_seasonality := none, weekly_seasonality := 5,
    daily_seasonality := false, seasonality_mode := "additive",
    seasonality_prior_scale := 5, changepoint_prior_scale := 2 / 100,
    changepoint_range := 7 / 10, n_changepoints := 10 }

def PROPHET_PARAMS_LONG : ProphetParams :=
  { yearly_seasonality := some 8, weekly_seasonality := 10,
    daily_seasonality := false, seasonality_mode := "multiplicative",
    seasonality_prior_scale := 10, changepoint_prior_scale := 8 / 100,
    changepoint_range := 85 / 100, n_changepoints := 25 }

/-- `ModelTrainer.get_prophet_params`: the tier presets by trailing
data length. -/
def get_prophet_params (data_length : Nat) : ProphetParams :=
  if data_length < SHORT_DATA_THRESHOLD then PROPHET_PARAMS_SHORT
  else if data_length < MEDIUM_DATA_THRESHOLD then PROPHET_PARAMS_MEDIUM
  else PROPHET_PARAMS_LONG

/-! ## Real-valued statistics and the training slice (claims C6, C8)

Square roots force ℝ here; comparisons on ℝ use classical decidability,
so this section is noncomputable. -/

noncomputable section
open Classical

def castR (l : List ℚ) : List ℝ := l.map (fun q => (q : ℝ))

def listMeanR (l : List ℝ) : ℝ := l.sum / l.length

/-- `Series.var()` (`ddof = 1`). -/
def sampleVarR (l : List ℝ) : ℝ :=
  (l.map (fun x => (x - listMeanR l) ^ 2)).sum / ((l.length : ℝ) - 1)

/-- `Series.std()` (`ddof = 1`). -/
def sampleStdR (l : List ℝ) : ℝ := Real.sqrt (sampleVarR l)

/-- `numpy.ndarray.var()` (`ddof = 0`). -/
def popVarR (l : List ℝ) : ℝ :=
  (l.map (fun x => (x - listMeanR l) ^ 2)).sum / (l.length : ℝ)

/-- `numpy.ndarray.std()` (`ddof = 0`). -/
def popStdR (l : List ℝ) : ℝ := Real.sqrt (popVarR l)

def maxR : List ℝ → ℝ
  | [] => 0
  | h :: t => t.foldl max h

def minR : List ℝ → ℝ
  | [] => 0
  | h :: t => t.foldl min h

/-- `round(x)` on ℝ, ties to even. -/
def pyRoundIntR (x : ℝ) : ℤ :=
  if x - ⌊x⌋ < 1 / 2 then ⌊x⌋
  else if (1 : ℝ) / 2 < x - ⌊x⌋ then ⌊x⌋ + 1
  else if ⌊x⌋ % 2 = 0 then ⌊x⌋ else ⌊x⌋ + 1

/-- `round(x, d)` on ℝ. -/
def pyRoundR (d : Nat) (x : ℝ) : ℝ := (pyRoundIntR (x * 10 ^ d) : ℝ) / 10 ^ d

/-- `ModelTrainer.calculate_dynamic_changepoint_scale` (model_trainer.py
lines 306-329).  Returns `(scale, cv)`: `cv = std/mean` (sample std; 0.5
when the mean is not positive); the base scale is multiplied by 0.8 when
`cv < 0.25`, by 1.2 when `cv > 0.5`, else kept, and the result is clamped
to `[0.01, 0.15]`. -/
def calculate_dynamic_changepoint_scale (ys : List ℚ) (base_scale : ℚ) : ℝ × ℝ :=
  let y_std := sampleStdR (castR ys)
  let y_mean := listMean ys
  let cv : ℝ := if 0 < y_mean then y_std / (y_mean : ℝ) else 1 / 2
  let scale : ℝ :=
    if cv < 1 / 4 then (base_scale : ℝ) * (8 / 10)
    else if 1 / 2 < cv then (base_scale : ℝ) * (12 / 10)
    else (base_scale : ℝ)
  (max (1 / 100) (min scale (15 / 100)), cv)

/-- `calculate_mape` (model_trainer.py lines 482-487): predictions are
floored at 0, rows with non-positive actuals are masked out, and an empty
mask yields 100.0. -/
def calculate_mape (actual predicted : List ℝ) : ℝ :=
  let masked := (actual.zip predicted).filter (fun p => decide (0 < p.1))
  if masked.isEmpty then 100
  else 100 * listMeanR (masked.map (fun p => |(p.1 - max p.2 0) / p.1|))

/-- `ModelTrainer._calculate_accuracy_detailed` (model_trainer.py lines
458-525) with the regression engine abstracted: `yhatTrain`/`yhatVal`
are the engine's raw `yhat` outputs on the train/validation slices (the
scaler application and `model.predict` itself are the external
collaborator).  Splits off the last `VALIDATION_DAYS` rows, applies the
`expm1(clip(·,-10,20))` inverse (since `USE_LOG_TRANSFORM`), and returns
`(round(accuracy,1), round(train_mape,2), round(val_mape,2))` with
`accuracy = max(0, min(100, 100 - val_mape))`; `(0,0,0)` when fewer than
`MIN_TRAINING_DAYS + VALIDATION_DAYS` rows are available. -/
def accuracy_detailed (y_original : List ℚ) (yhatTrain yhatVal : List ℝ) :
    ℝ × ℝ × ℝ :=
  if y_original.length < MIN_TRAINING_DAYS + VALIDATION_DAYS then (0, 0, 0)
  else
    let n := y_original.length
    let train_actual := castR (y_original.take (n - VALIDATION_DAYS))
    let val_actual := castR (y_original.drop (n - VALIDATION_DAYS))
    let inv := fun (yh : List ℝ) =>
      if USE_LOG_TRANSFORM then yh.map (fun v => np_expm1 (np_clip v (-10) 20)) else yh
    let train_mape := calculate_mape train_actual (inv yhatTrain)
    let val_mape := calculate_mape val_actual (inv yhatVal)
    let accuracy := max 0 (min 100 (100 - val_mape))
    (pyRoundR 1 accuracy, pyRoundR 2 train_mape, pyRoundR 2 val_mape)

/-- The metadata fields of interest assembled by `train_model`
(model_trainer.py lines 420-449).  `cv` is stored rounded to 4 digits
(line 429); `accuracy`/`train_mape`/`validation_mape` come from
`_calculate_accuracy_detailed` (lines 444-449). -/
structure TrainMeta where
  data_points : Nat
  y_mean : ℚ
  y_std : ℝ
  cv : ℝ
  changepoint_prior_scale : ℝ
  quality : QualityReport
  accuracy : ℝ
  train_mape : ℝ
  validation_mape : ℝ

/-- The training pipeline of `ModelTrainer.train_model` (model_trainer.py
lines 349-456) from fetched data to metadata, with the regression engine
abstracted as in `accuracy_detailed`.  Quality validation runs first and
its error propagates to the caller; then the preprocessing pipeline, the
tier parameters on the preprocessed length, the dynamic changepoint
scale, and the accuracy calculation. -/
def train_model_slice (today : Int) (df : List Row) (yhatTrain yhatVal : List ℝ) :
    Except String TrainMeta :=
  match validate_data_quality today df with
  | Except.error e => Except.error e
  | Except.ok q =>
    let ys := processed_y df
    let params := get_prophet_params ys.length
    let pair := calculate_dynamic_changepoint_scale ys params.changepoint_prior_scale
    let acc := accuracy_detailed ys yhatTrain yhatVal
    Except.ok
      { data_points := ys.length
        y_mean := listMean ys
        y_std := sampleStdR (castR ys)
        cv := pyRoundR 4 pair.2
        changepoint_prior_scale := pair.1
        quality := q
        accuracy := acc.1
        train_mape := acc.2.1
        validation_mape := acc.2.2 }

end

/-- 30-day frame passing both enforced quality checks while exceeding the
outlier-ratio ceiling: 28 days at 10 and 2 days at 1000 (outlier ratio
`2/30 ≈ 0.067 > 0.05`, squared z-score of the outliers
`28·29/60 ≈ 13.53 > 3.5² = 12.25`). -/
def c5df : List Row :=
  [⟨0, 10⟩, ⟨1, 10⟩, ⟨2, 10⟩, ⟨3, 10⟩, ⟨4, 10⟩, ⟨5, 10⟩, ⟨6, 10⟩,
   ⟨7, 10⟩, ⟨8, 10⟩, ⟨9, 10⟩, ⟨10, 10⟩, ⟨11, 10⟩, ⟨12, 10⟩, ⟨13, 10⟩,
   ⟨14, 10⟩, ⟨15, 10⟩, ⟨16, 10⟩, ⟨17, 10⟩, ⟨18, 10⟩, ⟨19, 10⟩, ⟨20, 10⟩,
   ⟨21, 10⟩, ⟨22, 10⟩, ⟨23, 10⟩, ⟨24, 10⟩, ⟨25, 10⟩, ⟨26, 10⟩, ⟨27, 10⟩,
   ⟨28, 1000⟩, ⟨29, 1000⟩]

/-- 44-day constant frame (dates 0..43, target 10) used as the concrete
training window in witnesses. -/
def df44 : List Row :=
  [⟨0, 10⟩, ⟨1, 10⟩, ⟨2, 10⟩, ⟨3, 10⟩, ⟨4, 10⟩, ⟨5, 10⟩, ⟨6, 10⟩,
   ⟨7, 10⟩, ⟨8, 10⟩, ⟨9, 10⟩, ⟨10, 10⟩, ⟨11, 10⟩, ⟨12, 10⟩, ⟨13, 10⟩,
   ⟨14, 10⟩, ⟨15, 10⟩, ⟨16, 10⟩, ⟨17, 10⟩, ⟨18, 10⟩, ⟨19, 10⟩, ⟨20, 10⟩,
   ⟨21, 10⟩, ⟨22, 10⟩, ⟨23, 10⟩, ⟨24, 10⟩, ⟨25, 10⟩, ⟨26, 10⟩, ⟨27, 10⟩,
   ⟨28, 10⟩, ⟨29, 10⟩, ⟨30, 10⟩, ⟨31, 10⟩, ⟨32, 10⟩, ⟨33, 10⟩, ⟨34, 10⟩,
   ⟨35, 10⟩, ⟨36, 10⟩, ⟨37, 10⟩, ⟨38, 10⟩, ⟨39, 10⟩, ⟨40, 10⟩, ⟨41, 10⟩,
   ⟨42, 10⟩, ⟨43, 10⟩]

/-! ## Claim C9: `validate_forecast_results` (main.py lines 851-967)

The forecast frame is modelled by its `yhat` column (a list of reals; NaN
and Inf do not exist in the model, so step 4 of the function is a no-op
and the `'yhat' missing` CRITICAL branch is ruled out by typing), the
historical frame by its `y` column.  `forecast['yhat'].values` is a numpy
view of the column: the zero/negative check of step 3 therefore sees the
values as corrected by step 1.  The f-string warnings are modelled as
tags. -/

/-- The warnings appended by `validate_forecast_results`, in order of the
code's append sites. -/
inductive FWarning
  | spike
  | flatten
  | zeroNeg
  | rangeHigh
  | rangeLow
deriving DecidableEq, Repr

noncomputable section
open Classical

/-- The historical statistics of main.py lines 884-893: taken from the
historical frame when it is non-empty, else from the forecast itself
(where `yhat.std()` is the numpy population std, or 1.0 for a single
value).  Returns `(hist_mean, hist_std, hist_max, hist_min)`. -/
def forecastStats (yhat hist : List ℝ) : ℝ × ℝ × ℝ × ℝ :=
  if hist.isEmpty then
    (listMeanR yhat, if 1 < yhat.length then popStdR yhat else 1, maxR yhat, minR yhat)
  else
    (listMeanR hist, sampleStdR hist, maxR hist, minR hist)

/-- Step 1 (lines 899-917): every value with z-score above the threshold
is clipped by `np.clip(v, max(0, mean - thr·std), mean + thr·std)`;
other values are untouched. -/
def spikeClipped (μ σ thr : ℝ) (yhat : List ℝ) : List ℝ :=
  yhat.map (fun v =>
    if thr < |v - μ| / σ then min (max v (max 0 (μ - thr * σ))) (μ + thr * σ) else v)

/-- Step 2 (lines 919-937): 7-day rolling variance (`min_periods=3`,
sample variance) of the forecast values. -/
def rollingVar7 (xs : List ℝ) : List (Option ℝ) :=
  (List.range xs.length).map (fun i =>
    let w := (xs.take (i + 1)).drop (i + 1 - 7)
    if 3 ≤ w.length then some (sampleVarR w) else none)

/-- The flatten test: more than half of the defined rolling windows have
variance, normalized by `max(1, mean)²`, below the threshold (NaN windows
compare false and are excluded from the denominator by `dropna`). -/
def flattenTriggered (xs : List ℝ) (thrFlat : ℝ) : Prop :=
  7 < xs.length ∧
    (1 : ℝ) / 2 <
      ((((rollingVar7 xs).filterMap id).map
          (fun v => v / (max 1 (listMeanR xs)) ^ 2)).filter
        (fun v => decide (v < thrFlat))).length /
      (((rollingVar7 xs).filterMap id).length : ℝ)

/-- Step 3 (lines 939-943): when any value is `≤ 0`, the whole column is
floored at `max(1.0, hist_min·0.5)`. -/
def zeroFloored (xs : List ℝ) (fl : ℝ) : List ℝ := xs.map (fun v => max v fl)

/-- `validate_forecast_results(forecast, historical_df, threshold_spike,
threshold_flatten) -> (is_valid, warnings, corrected_forecast)`. -/
def validate_forecast_results (yhat hist : List ℝ)
    (threshold_spike threshold_flatten : ℝ) : Bool × List FWarning × List ℝ :=
  let s := forecastStats yhat hist
  let hist_mean := s.1
  let hist_std := s.2.1
  let hist_max := s.2.2.1
  let hist_min := s.2.2.2
  let spiked := 0 < hist_std ∧ ∃ v ∈ yhat, threshold_spike < |v - hist_mean| / hist_std
  let xs1 := if 0 < hist_std then spikeClipped hist_mean hist_std threshold_spike yhat
    else yhat
  let w1 : List FWarning := if spiked then [FWarning.spike] else []
  let w2 := if flattenTriggered xs1 threshold_flatten then w1 ++ [FWarning.flatten] else w1
  let zeroTrig := ∃ v ∈ xs1, v ≤ 0
  let xs2 := if zeroTrig then zeroFloored xs1 (max 1 (hist_min * (1 / 2))) else xs1
  let w3 := if zeroTrig then w2 ++ [FWarning.zeroNeg] else w2
  let fm := listMeanR xs2
  let w4 := if hist_max * 3 < fm then w3 ++ [FWarning.rangeHigh]
    else if fm < hist_min * (3 / 10) ∧ 0 < hist_min then w3 ++ [FWarning.rangeLow]
    else w3
  (decide (FWarning.flatten ∉ w4), w4, xs2)

end

/-! ## Theorems -/

/-- **C1, counterexample.**  The frames `c1A` and `c1B` are date-sorted,
both contain date 1, and agree on every row with date `< 1`, yet
`add_lag_features` gives them different feature values at date 1 (row
position 1): the `lag_7` backfill mean is `0` for `c1A` and `7` for
`c1B`, because the defined `lag_7` entries read the targets at dates 0
and 1, and the target at date `1 ≥ D` differs.  This refutes the claim
that the features at a date `D` never depend on targets at dates
`≥ D`. -/
theorem C1_lag_features_leakage_counterexample :
    dsSorted c1A ∧ dsSorted c1B ∧
    (1 : Int) ∈ c1A.map Row.ds ∧ (1 : Int) ∈ c1B.map Row.ds ∧
    c1A.filter (fun r => decide (r.ds < 1)) =
      c1B.filter (fun r => decide (r.ds < 1)) ∧
    featuresAt (add_lag_features c1A) 1 ≠ featuresAt (add_lag_features c1B) 1 := by
  refine ⟨by decide, by decide, by decide, by decide, by decide, ?_⟩
  have hA : (add_lag_features c1A).lag_7[1]? = some 0 := by
    simp [add_lag_features, c1A, fillWithColMean, lag7Col, List.range_succ,
      listMean]
  have hB : (add_lag_features c1B).lag_7[1]? = some 7 := by
    simp [add_lag_features, c1B, fillWithColMean, lag7Col, List.range_succ,
      listMean]
    norm_num
  intro h
  have h1 : (add_lag_features c1A).lag_7[1]? = (add_lag_features c1B).lag_7[1]? :=
    congrArg (fun p => p.1) h
  rw [hA, hB] at h1
  exact absurd (Option.some.inj h1) (by norm_num)

/-! ### Claim C1, amended: no leakage at row positions ≥ 7

At any row position with at least 7 predecessors none of the three
columns is NaN, so the backfill does not apply and each feature value is
a function of the 7 immediately preceding targets only.  In particular
validation-window rows (positions ≥ 30 in any frame passing the quality
gate) are leakage-free. -/

/-- The backfill leaves an already-defined entry unchanged. -/
theorem fill_at_some (col : List (Option ℚ)) (i : Nat) (v : ℚ)
    (h : col[i]? = some (some v)) :
    (fillWithColMean col)[i]? = some v := by
  unfold fillWithColMean
  simp only [List.getElem?_map, h, Option.map_some']
  rfl

/-- At position `i ≥ 7` the filled `lag_7` column is the target 7 rows
back. -/
theorem lag7_filled_at (ys : List ℚ) (i : Nat) (h7 : 7 ≤ i)
    (hi : i < ys.length) :
    (fillWithColMean (lag7Col ys))[i]? = ys[i - 7]? := by
  have hi7 : i - 7 < ys.length := lt_of_le_of_lt (Nat.sub_le i 7) hi
  rw [List.getElem?_eq_getElem hi7]
  apply fill_at_some
  unfold lag7Col
  rw [List.getElem?_map, List.getElem?_range hi]
  simp [h7, List.getElem?_eq_getElem hi7]

/-- At position `i ≥ 7` the shifted rolling window has full length 7. -/
theorem window7_length (ys : List ℚ) (i : Nat) (h7 : 7 ≤ i)
    (hi : i < ys.length) : (window7 ys i).length = 7 := by
  unfold window7
  rw [List.length_drop, List.length_take]
  omega

/-- At position `i ≥ 7` the filled `rolling_mean_7` column is the mean of
the 7 preceding targets. -/
theorem rollMean_filled_at (ys : List ℚ) (i : Nat) (h7 : 7 ≤ i)
    (hi : i < ys.length) :
    (fillWithColMean (rollMeanCol ys))[i]? = some (listMean (window7 ys i)) := by
  apply fill_at_some
  unfold rollMeanCol
  rw [List.getElem?_map, List.getElem?_range hi]
  have hw : 3 ≤ (window7 ys i).length := by rw [window7_length ys i h7 hi]; omega
  simp [hw]

/-- At position `i ≥ 7` the filled squared `rolling_std_7` column is the
sample variance of the 7 preceding targets. -/
theorem rollVar_filled_at (ys : List ℚ) (i : Nat) (h7 : 7 ≤ i)
    (hi : i < ys.length) :
    (fillWithColMean (rollVarCol ys))[i]? = some (sampleVar (window7 ys i)) := by
  apply fill_at_some
  unfold rollVarCol
  rw [List.getElem?_map, List.getElem?_range hi]
  have hw : 3 ≤ (window7 ys i).length := by rw [window7_length ys i h7 hi]; omega
  simp [hw]

/-- In a strictly date-sorted frame containing date `D`, the rows with
date `< D` are exactly a prefix, followed by the row at `D`. -/
theorem filter_lt_decomp (L : List Row) (D : Int) (hs : dsSorted L)
    (hmem : D ∈ L.map Row.ds) :
    ∃ r t, L = L.filter (fun x => decide (x.ds < D)) ++ r :: t ∧ r.ds = D := by
  induction L with
  | nil => simp at hmem
  | cons a l ih =>
    rw [dsSorted, List.pairwise_cons] at hs
    obtain ⟨hall, hpl⟩ := hs
    by_cases ha : a.ds < D
    · have hmem' : D ∈ l.map Row.ds := by
        rcases List.mem_map.mp hmem with ⟨x, hx, hxd⟩
        rcases List.mem_cons.mp hx with rfl | hxl
        · omega
        · exact List.mem_map.mpr ⟨x, hxl, hxd⟩
      obtain ⟨r, t, heq, hr⟩ := ih hpl hmem'
      refine ⟨r, t, ?_, hr⟩
      rw [List.filter_cons_of_pos (by simpa using ha), List.cons_append, ← heq]
    · have haD : a.ds = D := by
        rcases List.mem_map.mp hmem with ⟨x, hx, hxd⟩
        rcases List.mem_cons.mp hx with rfl | hxl
        · exact hxd
        · have := hall x hxl
          omega
      refine ⟨a, l, ?_, haD⟩
      have hfil : (a :: l).filter (fun x => decide (x.ds < D)) = [] := by
        apply List.filter_eq_nil_iff.mpr
        intro x hx
        rcases List.mem_cons.mp hx with rfl | hxl
        · simp; omega
        · have := hall x hxl
          simp; omega
      rw [hfil, List.nil_append]

/-- **C1, amended.**  Leakage-freedom of `add_lag_features` away from the
backfilled region: if two date-sorted frames agree on all rows with date
`< D`, both contain `D`, and `D` has at least 7 predecessors, then the
`lag_7`, `rolling_mean_7` and `rolling_std_7` feature values produced at
date `D` coincide — they are a function of the rows before `D` only.
(By `window7_length` they read exactly the 7 preceding targets.)  The
counterexample `C1_lag_features_leakage_counterexample` shows the
position restriction is necessary: within the first 7 rows the NaN
backfill mixes in later targets. -/
theorem C1_lag_features_no_leakage_amended
    (A B : List Row) (D : Int)
    (hA : dsSorted A) (hB : dsSorted B)
    (hagree : A.filter (fun r => decide (r.ds < D)) =
      B.filter (fun r => decide (r.ds < D)))
    (hmemA : D ∈ A.map Row.ds) (hmemB : D ∈ B.map Row.ds)
    (hidx : 7 ≤ (A.filter (fun r => decide (r.ds < D))).length) :
    featuresAt (add_lag_features A) (A.filter (fun r => decide (r.ds < D))).length =
    featuresAt (add_lag_features B) (B.filter (fun r => decide (r.ds < D))).length := by
  obtain ⟨rA, tA, heqA, -⟩ := filter_lt_decomp A D hA hmemA
  obtain ⟨rB, tB, heqB, -⟩ := filter_lt_decomp B D hB hmemB
  rw [← hagree] at heqB
  rw [← hagree]
  set P := A.filter (fun r => decide (r.ds < D)) with hP
  set i := P.length with hi
  have hlenA : i < (A.map Row.y).length := by
    rw [List.length_map, heqA, List.length_append, List.length_cons]
    omega
  have hlenB : i < (B.map Row.y).length := by
    rw [List.length_map, heqB, List.length_append, List.length_cons]
    omega
  have htakeA : (A.map Row.y).take i = P.map Row.y := by
    rw [heqA, List.map_append]
    exact List.take_left' ((List.length_map P Row.y).trans hi.symm)
  have htakeB : (B.map Row.y).take i = P.map Row.y := by
    rw [heqB, List.map_append]
    exact List.take_left' ((List.length_map P Row.y).trans hi.symm)
  have hlt : i - 7 < i := by omega
  unfold featuresAt add_lag_features
  dsimp only
  rw [lag7_filled_at _ i hidx hlenA, lag7_filled_at _ i hidx hlenB,
    rollMean_filled_at _ i hidx hlenA, rollMean_filled_at _ i hidx hlenB,
    rollVar_filled_at _ i hidx hlenA, rollVar_filled_at _ i hidx hlenB,
    ← List.getElem?_take_of_lt (l := A.map Row.y) hlt,
    ← List.getElem?_take_of_lt (l := B.map Row.y) hlt]
  unfold window7
  rw [htakeA, htakeB]

/-- Witness for `C1_lag_features_no_leakage_amended`: two 9-day frames
sharing their first 8 rows but with different targets at date 8 get equal
features at date 8. -/
theorem C1_lag_features_no_leakage_amended_witness :
    featuresAt
      (add_lag_features
        [⟨0, 1⟩, ⟨1, 1⟩, ⟨2, 1⟩, ⟨3, 1⟩, ⟨4, 1⟩, ⟨5, 1⟩, ⟨6, 1⟩, ⟨7, 1⟩, ⟨8, 5⟩]) 8 =
    featuresAt
      (add_lag_features
        [⟨0, 1⟩, ⟨1, 1⟩, ⟨2, 1⟩, ⟨3, 1⟩, ⟨4, 1⟩, ⟨5, 1⟩, ⟨6, 1⟩, ⟨7, 1⟩, ⟨8, 9⟩]) 8 := by
  have h := C1_lag_features_no_leakage_amended
    [⟨0, 1⟩, ⟨1, 1⟩, ⟨2, 1⟩, ⟨3, 1⟩, ⟨4, 1⟩, ⟨5, 1⟩, ⟨6, 1⟩, ⟨7, 1⟩, ⟨8, 5⟩]
    [⟨0, 1⟩, ⟨1, 1⟩, ⟨2, 1⟩, ⟨3, 1⟩, ⟨4, 1⟩, ⟨5, 1⟩, ⟨6, 1⟩, ⟨7, 1⟩, ⟨8, 9⟩]
    8 (by decide) (by decide) (by decide) (by decide) (by decide) (by decide)
  simpa using h

/-- **C2 (confirmed).**  For every target value `v ≥ 0` in the range
representable by the clipped inverse — `v ≤ expm1 20`, so that the `20`
clip does not bite — the prediction-side inverse `expm1 (clip x (-10) 20)`
applied to the training-side `log1p v` returns exactly `v`. -/
theorem C2_transform_symmetry (v : ℝ) (h0 : 0 ≤ v) (hr : v ≤ np_expm1 20) :
    np_expm1 (np_clip (np_log1p v) (-10) 20) = v := by
  have h1 : (0 : ℝ) < 1 + v := by linarith
  have hlog0 : 0 ≤ np_log1p v := Real.log_nonneg (by linarith)
  have hlog20 : np_log1p v ≤ 20 := by
    unfold np_log1p
    rw [Real.log_le_iff_le_exp h1]
    unfold np_expm1 at hr
    linarith
  unfold np_clip
  rw [max_eq_left (by linarith : (-10 : ℝ) ≤ np_log1p v), min_eq_left hlog20]
  unfold np_expm1 np_log1p
  rw [Real.exp_log h1]
  ring

/-- Witness for `C2_transform_symmetry` at `v = 3`. -/
theorem C2_transform_symmetry_witness :
    np_expm1 (np_clip (np_log1p 3) (-10) 20) = 3 := by
  have h20 : (3 : ℝ) ≤ np_expm1 20 := by
    have := Real.add_one_le_exp (20 : ℝ)
    unfold np_expm1
    linarith
  exact C2_transform_symmetry 3 (by norm_num) h20

/-- **C3, counterexample.**  Saving version 1 over a fully-written
version-0 pair and crashing between the model write and the metadata
write leaves the store returning the version-1 model with the version-0
metadata: the persistence sequence is not atomic. -/
theorem C3_atomic_save_counterexample :
    ¬ atomicSaveOk
        { modelFile := some 0, metaFile := some (MetaFile.readable (metaV 0)) }
        1 (metaV 1) := by decide

/-- **C3, amended.**  `save_model` persists the artifact and its metadata
as two separate in-place writes (no write-then-rename): starting from any
store holding a consistent pair of version `v0`, the reachable crash
states are exactly the initial store, the store with only the model file
rewritten, and the fully-saved store; in the middle state `load` returns
the *new* model `v1` paired with the *previous* metadata, violating pair
consistency whenever `v1 ≠ v0`. -/
theorem C3_save_not_atomic_amended (fs : ModelStore) (v0 v1 : Nat)
    (m0 m1 : StoredMeta)
    (_hm : fs.modelFile = some v0)
    (hmeta : fs.metaFile = some (MetaFile.readable m0))
    (hv0 : m0.model_version = v0)
    (hne : v1 ≠ v0) :
    crash_states (save_model_steps v1 m1) fs =
      [fs, { fs with modelFile := some v1 },
        { modelFile := some v1, metaFile := some (MetaFile.readable m1) }] ∧
    load_model { fs with modelFile := some v1 } = (some v1, some (loadedOf m0)) ∧
    ¬ pairConsistent { fs with modelFile := some v1 } := by
  refine ⟨rfl, ?_, ?_⟩
  · simp [load_model, hmeta]
  · simp [pairConsistent, pairConsistentB, load_model, hmeta, loadedOf, hv0]
    exact fun h => hne h.symm

/-- Witness for `C3_save_not_atomic_amended` at a concrete store. -/
theorem C3_save_not_atomic_amended_witness :
    crash_states (save_model_steps 1 (metaV 1))
        { modelFile := some 0, metaFile := some (MetaFile.readable (metaV 0)) } =
      [{ modelFile := some 0, metaFile := some (MetaFile.readable (metaV 0)) },
        { modelFile := some 1, metaFile := some (MetaFile.readable (metaV 0)) },
        { modelFile := some 1, metaFile := some (MetaFile.readable (metaV 1)) }] ∧
    load_model { modelFile := some 1, metaFile := some (MetaFile.readable (metaV 0)) } =
      (some 1, some (loadedOf (metaV 0))) ∧
    ¬ pairConsistent { modelFile := some 1, metaFile := some (MetaFile.readable (metaV 0)) } :=
  C3_save_not_atomic_amended
    { modelFile := some 0, metaFile := some (MetaFile.readable (metaV 0)) }
    0 1 (metaV 0) (metaV 1) rfl rfl rfl (by decide)

/-- **C7 (confirmed).**  Complete decision table of `should_retrain`: no
model file → retrain, reason naming the missing model; otherwise (with
missing/unreadable metadata normalized to the fallback, whose absent
`saved_at` forces age 999) age `≥ MAX_MODEL_AGE_DAYS` → retrain with a
reason naming the age; else stored accuracy `< MIN_ACCURACY_THRESHOLD`
(absent accuracy counts as 0) → retrain with a reason naming the
accuracy; else training-data end date more than 3 days old → retrain with
a reason naming the staleness; else "Model up-to-date" and no retrain.
A readable metadata file lacking `end_date` makes the remaining check
raise (`Except.error`). -/
theorem C7_should_retrain_spec (fs : ModelStore) (today : Int) :
    should_retrain fs today =
      match fs.modelFile with
      | none => Except.ok (true, "No existing model")
      | some _ =>
        let meta :=
          match fs.metaFile with
          | none => fallbackMeta
          | some MetaFile.unreadable => fallbackMeta
          | some (MetaFile.readable m) => loadedOf m
        if MAX_MODEL_AGE_DAYS ≤ get_model_age_days today meta then
          Except.ok (true, "Model age " ++ toString (get_model_age_days today meta) ++
            " >= " ++ toString MAX_MODEL_AGE_DAYS ++ " days")
        else if meta.accuracy.getD 0 < MIN_ACCURACY_THRESHOLD then
          Except.ok (true, "Accuracy " ++ toString (meta.accuracy.getD 0) ++ "% < " ++
            toString MIN_ACCURACY_THRESHOLD ++ "%")
        else
          match meta.end_date with
          | none => Except.error ()
          | some e =>
            if 3 < today - e then
              Except.ok (true, "Data is " ++ toString (today - e) ++ " days old")
            else
              Except.ok (false, "Model up-to-date") := by
  rcases fs with ⟨mf, mtf⟩
  cases mf with
  | none => rfl
  | some v =>
    cases mtf with
    | none => rfl
    | some mf' =>
      cases mf' with
      | readable m => rfl
      | unreadable => rfl

/-- **C10 (confirmed).**  If the model file exists but the metadata file
is missing or unreadable, `load` returns the model paired with the
fallback metadata, whose `log_transform` flag is `True`; consequently the
prediction path applies the `expm1(clip(·, -10, 20))` inverse transform
to every forecast value — regardless of how the model was actually
trained, since nothing of the training configuration survives. -/
theorem C10_metadata_fallback (fs : ModelStore) (v : Nat)
    (hm : fs.modelFile = some v)
    (hmeta : fs.metaFile = none ∨ fs.metaFile = some MetaFile.unreadable) :
    load_model fs = (some v, some fallbackMeta) ∧
    fallbackMeta.log_transform = true ∧
    ∀ yhat : ℝ, predict_transform (load_model fs).2 yhat =
      np_expm1 (np_clip yhat (-10) 20) := by
  have hload : load_model fs = (some v, some fallbackMeta) := by
    rcases hmeta with h | h <;> simp [load_model, hm, h]
  refine ⟨hload, rfl, fun yhat => ?_⟩
  rw [hload]
  rfl

/-- Witness for `C10_metadata_fallback`: model file present (version 5),
metadata file missing. -/
theorem C10_metadata_fallback_witness :
    load_model ⟨some 5, none⟩ = (some 5, some fallbackMeta) ∧
    fallbackMeta.log_transform = true ∧
    ∀ yhat : ℝ, predict_transform (load_model ⟨some 5, none⟩).2 yhat =
      np_expm1 (np_clip yhat (-10) 20) :=
  C10_metadata_fallback ⟨some 5, none⟩ 5 rfl (Or.inl rfl)

/-- **C4, counterexample.**  `ModelTrainer.apply_scaler` (and the
identical `logic.apply_scaler`) leaves a fitted column with stored scale
0 completely unchanged — `[5]`, not the constant `0.0` column — and
emits no warning (its loop has no `else` branch at all). -/
theorem C4_zero_scale_counterexample :
    dictGet? c4sp.scale_ "a" = some 0 ∧
    c4df "a" = some [5] ∧
    apply_scaler c4df c4sp "a" = some [5] ∧
    some [(5 : ℚ)] ≠ some [(0 : ℚ)] := by
  refine ⟨rfl, rfl, ?_, by norm_num⟩
  show scalerStep c4sp c4df "a" "a" = some [5]
  unfold scalerStep c4df c4sp dictGet?
  norm_num

/-! Fold lemmas: each loop iteration touches only its own column, and the
warning log only grows. -/

theorem scalerStep_apply_other (sp : ScalerParams) (acc : Frame) (col c : String)
    (h : c ≠ col) : scalerStep sp acc col c = acc c := by
  unfold scalerStep
  cases acc col with
  | none => rfl
  | some x =>
    cases dictGet? sp.mean_ col with
    | none => rfl
    | some mean =>
      cases dictGet? sp.scale_ col with
      | none => rfl
      | some scale =>
        dsimp only
        by_cases hpos : 0 < scale
        · rw [if_pos hpos]
          simp [setCol, h]
        · rw [if_neg hpos]

theorem foldl_scalerStep_not_mem (sp : ScalerParams) (l : List String) (acc : Frame)
    (c : String) (h : c ∉ l) : (l.foldl (scalerStep sp) acc) c = acc c := by
  induction l generalizing acc with
  | nil => rfl
  | cons a t ih =>
    rw [List.foldl_cons]
    have hne : c ≠ a := fun hc => h (hc ▸ List.mem_cons_self a t)
    rw [ih _ (fun hc => h (List.mem_cons_of_mem a hc)),
      scalerStep_apply_other sp acc a c hne]

theorem scalerStep_apply_self (sp : ScalerParams) (acc : Frame) (c : String)
    (x : List ℚ) (m s : ℚ) (hx : acc c = some x)
    (hm : dictGet? sp.mean_ c = some m) (hs : dictGet? sp.scale_ c = some s) :
    scalerStep sp acc c c =
      if 0 < s then some (x.map (fun v => (v - m) / s)) else some x := by
  unfold scalerStep
  rw [hx, hm, hs]
  dsimp only
  by_cases hpos : 0 < s
  · rw [if_pos hpos, if_pos hpos]
    simp [setCol]
  · rw [if_neg hpos, if_neg hpos]
    exact hx

theorem scalerStepW_fst_other (nRows : Nat) (sp : ScalerParams)
    (st : Frame × List String) (col c : String) (h : c ≠ col) :
    (scalerStepW nRows sp st col).1 c = st.1 c := by
  unfold scalerStepW
  dsimp only
  split <;> simp [setCol, h]

theorem foldl_scalerStepW_fst_not_mem (nRows : Nat) (sp : ScalerParams)
    (l : List String) (st : Frame × List String) (c : String) (h : c ∉ l) :
    (l.foldl (scalerStepW nRows sp) st).1 c = st.1 c := by
  induction l generalizing st with
  | nil => rfl
  | cons a t ih =>
    rw [List.foldl_cons]
    have hne : c ≠ a := fun hc => h (hc ▸ List.mem_cons_self a t)
    rw [ih _ (fun hc => h (List.mem_cons_of_mem a hc)),
      scalerStepW_fst_other nRows sp st a c hne]

theorem foldl_scalerStepW_snd_suffix (nRows : Nat) (sp : ScalerParams)
    (l : List String) (st : Frame × List String) :
    ∃ w, (l.foldl (scalerStepW nRows sp) st).2 = st.2 ++ w := by
  induction l generalizing st with
  | nil => exact ⟨[], (List.append_nil _).symm⟩
  | cons a t ih =>
    rw [List.foldl_cons]
    obtain ⟨w, hw⟩ := ih (scalerStepW nRows sp st a)
    have hstep : ∃ w0, (scalerStepW nRows sp st a).2 = st.2 ++ w0 := by
      unfold scalerStepW
      dsimp only
      split
      · exact ⟨[], (List.append_nil _).symm⟩
      · exact ⟨[a], rfl⟩
    obtain ⟨w0, hw0⟩ := hstep
    exact ⟨w0 ++ w, by rw [hw, hw0, List.append_assoc]⟩

theorem scalerStepW_self (nRows : Nat) (sp : ScalerParams)
    (st : Frame × List String) (c : String) (x : List ℚ) (m s : ℚ)
    (hx : st.1 c = some x)
    (hm : dictGet? sp.mean_ c = some m) (hs : dictGet? sp.scale_ c = some s) :
    (scalerStepW nRows sp st c).1 c =
      (if 0 < s then some (x.map (fun v => (v - m) / s))
        else some (List.replicate x.length 0)) ∧
    (scalerStepW nRows sp st c).2 = (if 0 < s then st.2 else st.2 ++ [c]) := by
  unfold scalerStepW
  rw [hx, hm, hs]
  dsimp only
  simp only [Option.getD_some]
  by_cases hpos : 0 < s
  · rw [if_pos hpos, if_pos hpos, if_pos hpos]
    exact ⟨by simp [setCol], rfl⟩
  · rw [if_neg hpos, if_neg hpos, if_neg hpos]
    exact ⟨by simp [setCol], rfl⟩

/-- **C4, amended.**  With complete persisted parameters and distinct
configured columns: `apply_scaler_to_df` (main.py) never raises, maps a
fitted column with stored scale 0 to the constant-0.0 column *and*
records the zero-scale warning, and applies exactly `(x - mean) / scale`
when the scale is positive; `ModelTrainer.apply_scaler` and
`logic.apply_scaler` apply the same exact formula for a positive scale
but *skip* a zero-scale column, leaving it unchanged with no warning.
None of the three raises on a zero scale. -/
theorem C4_zero_scale_amended (nRows : Nat) (df : Frame) (sp : ScalerParams)
    (c : String) (x : List ℚ) (m s : ℚ)
    (hnd : sp.columns.Nodup) (hc : c ∈ sp.columns)
    (hcomplete : ∀ c' ∈ sp.columns,
      (dictGet? sp.mean_ c').isSome ∧ (dictGet? sp.scale_ c').isSome)
    (hm : dictGet? sp.mean_ c = some m) (hs : dictGet? sp.scale_ c = some s)
    (hx : df c = some x) :
    (∃ df' warns, apply_scaler_to_df nRows df sp = Except.ok (df', warns) ∧
      (s = 0 → df' c = some (List.replicate x.length 0) ∧ c ∈ warns) ∧
      (0 < s → df' c = some (x.map (fun v => (v - m) / s)))) ∧
    (s = 0 → apply_scaler df sp c = some x) ∧
    (0 < s → apply_scaler df sp c = some (x.map (fun v => (v - m) / s))) := by
  obtain ⟨l1, l2, hsplit⟩ := List.append_of_mem hc
  have hnd' := hnd
  rw [hsplit] at hnd'
  obtain ⟨-, hnd2, hdisj⟩ := List.nodup_append.mp hnd'
  have hcl2 : c ∉ l2 := (List.nodup_cons.mp hnd2).1
  have hcl1 : c ∉ l1 := fun hmem => hdisj hmem (List.mem_cons_self c l2)
  -- the trainer/logic version
  have htrainer : ∀ P : Option (List ℚ) → Prop,
      P (scalerStep sp (l1.foldl (scalerStep sp) df) c c) →
      P (apply_scaler df sp c) := by
    intro P hP
    unfold apply_scaler
    rw [hsplit, List.foldl_append, List.foldl_cons,
      foldl_scalerStep_not_mem sp l2 _ c hcl2]
    exact hP
  have hacc1 : (l1.foldl (scalerStep sp) df) c = some x := by
    rw [foldl_scalerStep_not_mem sp l1 df c hcl1, hx]
  have hstep := scalerStep_apply_self sp (l1.foldl (scalerStep sp) df) c x m s hacc1 hm hs
  refine ⟨?_, ?_, ?_⟩
  · -- the main.py version
    have hfm : sp.columns.filter (fun c' => (dictGet? sp.mean_ c').isNone) = [] := by
      apply List.filter_eq_nil_iff.mpr
      intro a ha
      have h1 := (hcomplete a ha).1
      cases hda : dictGet? sp.mean_ a with
      | none => rw [hda] at h1; simp at h1
      | some _ => simp
    have hfs : sp.columns.filter (fun c' => (dictGet? sp.scale_ c').isNone) = [] := by
      apply List.filter_eq_nil_iff.mpr
      intro a ha
      have h1 := (hcomplete a ha).2
      cases hda : dictGet? sp.scale_ a with
      | none => rw [hda] at h1; simp at h1
      | some _ => simp
    refine ⟨(sp.columns.foldl (scalerStepW nRows sp) (df, [])).1,
      (sp.columns.foldl (scalerStepW nRows sp) (df, [])).2, ?_, ?_, ?_⟩
    · unfold apply_scaler_to_df
      rw [if_neg (by simp [hfm, hfs])]
    · intro hzero
      have hnpos : ¬ (0 : ℚ) < s := by rw [hzero]; exact lt_irrefl 0
      have hst1 : (l1.foldl (scalerStepW nRows sp) (df, ([] : List String))).1 c
          = some x := by
        rw [foldl_scalerStepW_fst_not_mem nRows sp l1 _ c hcl1]
        exact hx
      have hself := scalerStepW_self nRows sp
        (l1.foldl (scalerStepW nRows sp) (df, [])) c x m s hst1 hm hs
      constructor
      · rw [hsplit, List.foldl_append, List.foldl_cons,
          foldl_scalerStepW_fst_not_mem nRows sp l2 _ c hcl2,
          hself.1, if_neg hnpos]
      · obtain ⟨w, hw⟩ := foldl_scalerStepW_snd_suffix nRows sp l2
          (scalerStepW nRows sp (l1.foldl (scalerStepW nRows sp) (df, [])) c)
        rw [hsplit, List.foldl_append, List.foldl_cons, hw, hself.2, if_neg hnpos]
        simp
    · intro hpos
      have hst1 : (l1.foldl (scalerStepW nRows sp) (df, ([] : List String))).1 c
          = some x := by
        rw [foldl_scalerStepW_fst_not_mem nRows sp l1 _ c hcl1]
        exact hx
      have hself := scalerStepW_self nRows sp
        (l1.foldl (scalerStepW nRows sp) (df, [])) c x m s hst1 hm hs
      rw [hsplit, List.foldl_append, List.foldl_cons,
        foldl_scalerStepW_fst_not_mem nRows sp l2 _ c hcl2,
        hself.1, if_pos hpos]
  · intro hzero
    have hnpos : ¬ (0 : ℚ) < s := by rw [hzero]; exact lt_irrefl 0
    exact htrainer (fun o => o = some x) (by rw [hstep, if_neg hnpos])
  · intro hpos
    exact htrainer (fun o => o = some (x.map (fun v => (v - m) / s)))
      (by rw [hstep, if_pos hpos])

/-- Witness for `C4_zero_scale_amended`: two columns, "a" with scale 0
(value `[5]`, mean 1) and "b" with scale 2. -/
theorem C4_zero_scale_amended_witness :
    (∃ df' warns,
      apply_scaler_to_df 1 (fun c => if c = "a" then some [5] else
        if c = "b" then some [4] else none)
        { columns := ["a", "b"], mean_ := [("a", 1), ("b", 2)],
          scale_ := [("a", 0), ("b", 2)] } = Except.ok (df', warns) ∧
      ((0 : ℚ) = 0 → df' "a" = some (List.replicate 1 0) ∧ "a" ∈ warns) ∧
      ((0 : ℚ) < 0 → df' "a" = some ([(5 : ℚ)].map (fun v => (v - 1) / 0)))) ∧
    ((0 : ℚ) = 0 →
      apply_scaler (fun c => if c = "a" then some [5] else
        if c = "b" then some [4] else none)
        { columns := ["a", "b"], mean_ := [("a", 1), ("b", 2)],
          scale_ := [("a", 0), ("b", 2)] } "a" = some [5]) ∧
    ((0 : ℚ) < 0 →
      apply_scaler (fun c => if c = "a" then some [5] else
        if c = "b" then some [4] else none)
        { columns := ["a", "b"], mean_ := [("a", 1), ("b", 2)],
          scale_ := [("a", 0), ("b", 2)] } "a" =
        some ([(5 : ℚ)].map (fun v => (v - 1) / 0))) :=
  C4_zero_scale_amended 1
    (fun c => if c = "a" then some [5] else if c = "b" then some [4] else none)
    { columns := ["a", "b"], mean_ := [("a", 1), ("b", 2)],
      scale_ := [("a", 0), ("b", 2)] }
    "a" [5] 1 0 (by decide) (by decide)
    (by intro c' hc'; fin_cases hc' <;> exact ⟨rfl, rfl⟩)
    rfl rfl rfl

/-- **C5, counterexample.**  `validate_data_quality` accepts `c5df`
although its outlier ratio `2/30` exceeds `maxOutlierRatio = 0.05`
(the ratio is merely recorded in the report, rounded to `0.067`): the
gate does not raise on the outlier-ratio ceiling, refuting the "exactly
when" claim. -/
theorem C5_outlier_gate_counterexample :
    validate_data_quality 30 c5df =
      Except.ok
        { total_days := 30, non_zero_ratio := 1, outlier_count := some 2,
          outlier_ratio := some (67 / 1000), data_age_days := 1 } ∧
    maxOutlierRatio < (2 : ℚ) / 30 := by
  constructor
  · norm_num [validate_data_quality, c5df, listMean, sampleVar, pyRound, pyRoundInt,
      minNonZeroDaysRatio, OUTLIER_Z_SCORE_THRESHOLD, MIN_TRAINING_DAYS]
    norm_num [Int.fract]
  · norm_num [maxOutlierRatio]

/-- **C5, amended.**  The quality gate raises exactly when the window has
fewer than `MIN_TRAINING_DAYS` rows or its non-zero-day ratio is below
`minNonZeroDaysRatio`; the outlier ratio is only computed into the
quality report (when the variance is positive), never enforced against
`maxOutlierRatio`; and any quality error propagates unchanged through
the training pipeline to the caller. -/
theorem C5_quality_gate_amended (today : Int) (df : List Row) :
    ((validate_data_quality today df).isOk = false ↔
      df.length < MIN_TRAINING_DAYS ∨
        (((df.map Row.y).filter (fun y => decide (0 < y))).length : ℚ) / df.length <
          minNonZeroDaysRatio) ∧
    (∀ rep, validate_data_quality today df = Except.ok rep →
      rep.outlier_ratio =
        (if 0 < sampleVar (df.map Row.y) then
          some (pyRound 3
            ((((df.map Row.y).filter (fun y =>
              decide (OUTLIER_Z_SCORE_THRESHOLD ^ 2 * sampleVar (df.map Row.y) <
                (y - listMean (df.map Row.y)) ^ 2))).length : ℚ) / df.length))
        else none)) ∧
    (∀ e, validate_data_quality today df = Except.error e →
      ∀ yhatTrain yhatVal,
        train_model_slice today df yhatTrain yhatVal = Except.error e) := by
  refine ⟨?_, ?_, ?_⟩
  · unfold validate_data_quality
    by_cases h1 : df.length < MIN_TRAINING_DAYS
    · simp [h1, Except.isOk, Except.toBool]
    · by_cases h2 : (((df.map Row.y).filter (fun y => decide (0 < y))).length : ℚ) /
          df.length < minNonZeroDaysRatio
      · simp [h1, h2, Except.isOk, Except.toBool]
      · simp [h1, h2, Except.isOk, Except.toBool]
  · intro rep hrep
    unfold validate_data_quality at hrep
    by_cases h1 : df.length < MIN_TRAINING_DAYS
    · rw [if_pos h1] at hrep
      exact absurd hrep (by simp)
    · rw [if_neg h1] at hrep
      by_cases h2 : (((df.map Row.y).filter (fun y => decide (0 < y))).length : ℚ) /
          df.length < minNonZeroDaysRatio
      · rw [if_pos h2] at hrep
        exact absurd hrep (by simp)
      · rw [if_neg h2] at hrep
        have := (Except.ok.injEq _ _).mp hrep
        subst this
        by_cases hv : 0 < sampleVar (df.map Row.y)
        · simp [hv]
        · simp [hv]
  · intro e he yhatTrain yhatVal
    simp [train_model_slice, he]

/-- Witness for `C5_quality_gate_amended` at `today = 30`, frame
`c5df`. -/
theorem C5_quality_gate_amended_witness :
    ((validate_data_quality 30 c5df).isOk = false ↔
      c5df.length < MIN_TRAINING_DAYS ∨
        (((c5df.map Row.y).filter (fun y => decide (0 < y))).length : ℚ) / c5df.length <
          minNonZeroDaysRatio) ∧
    (∀ rep, validate_data_quality 30 c5df = Except.ok rep →
      rep.outlier_ratio =
        (if 0 < sampleVar (c5df.map Row.y) then
          some (pyRound 3
            ((((c5df.map Row.y).filter (fun y =>
              decide (OUTLIER_Z_SCORE_THRESHOLD ^ 2 * sampleVar (c5df.map Row.y) <
                (y - listMean (c5df.map Row.y)) ^ 2))).length : ℚ) / c5df.length))
        else none)) ∧
    (∀ e, validate_data_quality 30 c5df = Except.error e →
      ∀ yhatTrain yhatVal,
        train_model_slice 30 c5df yhatTrain yhatVal = Except.error e) :=
  C5_quality_gate_amended 30 c5df

/-! Length preservation through the preprocessing pipeline (under the
shipped `clip` outlier policy and enabled smoothing). -/

theorem apply_smoothing_y_length (ys : List ℚ) :
    (apply_smoothing_y ys).length = ys.length := by
  unfold apply_smoothing_y
  dsimp only
  split <;> simp

theorem handle_outliers_length (df : List Row) :
    (handle_outliers df).length = df.length := by
  unfold handle_outliers
  rw [if_neg (by decide : ¬ OUTLIER_HANDLING = "none"),
    if_pos (by decide : OUTLIER_HANDLING = "clip")]
  simp

theorem processed_y_length (df : List Row) :
    (processed_y df).length = df.length := by
  unfold processed_y
  rw [if_pos (by decide : APPLY_SMOOTHING = true), apply_smoothing_y_length,
    List.length_map, handle_outliers_length]

/-- Shared unfolding: when the quality gate passes, `train_model_slice`
returns the metadata literal. -/
theorem train_model_slice_ok (today : Int) (df : List Row) (pt pv : List ℝ)
    (q : QualityReport) (hv : validate_data_quality today df = Except.ok q) :
    train_model_slice today df pt pv = Except.ok
      { data_points := (processed_y df).length
        y_mean := listMean (processed_y df)
        y_std := sampleStdR (castR (processed_y df))
        cv := pyRoundR 4 (calculate_dynamic_changepoint_scale (processed_y df)
          (get_prophet_params (processed_y df).length).changepoint_prior_scale).2
        changepoint_prior_scale := (calculate_dynamic_changepoint_scale (processed_y df)
          (get_prophet_params (processed_y df).length).changepoint_prior_scale).1
        quality := q
        accuracy := (accuracy_detailed (processed_y df) pt pv).1
        train_mape := (accuracy_detailed (processed_y df) pt pv).2.1
        validation_mape := (accuracy_detailed (processed_y df) pt pv).2.2 } := by
  simp only [train_model_slice, hv]

/-- **C6 (confirmed).**  For every training run that passes the quality
gate and has enough rows to compute a validation MAPE
(`≥ MIN_TRAINING_DAYS + VALIDATION_DAYS`), the stored accuracy is
`round(max(0, min(100, 100 - validation_mape)), 1)` — 100 minus the
validation MAPE of the last `VALIDATION_DAYS` days (predictions
inverse-transformed by `expm1(clip(·,-10,20))`), clamped to `[0, 100]`
and rounded to one decimal — and the stored `validation_mape` is that
MAPE rounded to two decimals. -/
theorem C6_accuracy_definition (today : Int) (df : List Row) (pt pv : List ℝ)
    (hok : (validate_data_quality today df).isOk = true)
    (hn : MIN_TRAINING_DAYS + VALIDATION_DAYS ≤ (processed_y df).length) :
    ∃ meta, train_model_slice today df pt pv = Except.ok meta ∧
      meta.accuracy = pyRoundR 1 (max 0 (min 100 (100 -
        calculate_mape
          (castR ((processed_y df).drop ((processed_y df).length - VALIDATION_DAYS)))
          (pv.map (fun v => np_expm1 (np_clip v (-10) 20)))))) ∧
      meta.validation_mape = pyRoundR 2
        (calculate_mape
          (castR ((processed_y df).drop ((processed_y df).length - VALIDATION_DAYS)))
          (pv.map (fun v => np_expm1 (np_clip v (-10) 20)))) := by
  cases hv : validate_data_quality today df with
  | error e => rw [hv] at hok; simp [Except.isOk, Except.toBool] at hok
  | ok q =>
    refine ⟨_, train_model_slice_ok today df pt pv q hv, ?_, ?_⟩
    · show (accuracy_detailed (processed_y df) pt pv).1 = _
      unfold accuracy_detailed
      rw [if_neg (not_lt.mpr hn)]
      simp [USE_LOG_TRANSFORM]
    · show (accuracy_detailed (processed_y df) pt pv).2.2 = _
      unfold accuracy_detailed
      rw [if_neg (not_lt.mpr hn)]
      simp [USE_LOG_TRANSFORM]

/-- Witness for `C6_accuracy_definition`: the 44-day constant frame, with
empty engine outputs (the MAPE formula then yields 100 and the stored
accuracy `round(max(0, min(100, 0)), 1)`). -/
theorem C6_accuracy_definition_witness :
    ∃ meta, train_model_slice 44 df44 [] [] = Except.ok meta ∧
      meta.accuracy = pyRoundR 1 (max 0 (min 100 (100 -
        calculate_mape
          (castR ((processed_y df44).drop ((processed_y df44).length - VALIDATION_DAYS)))
          (([] : List ℝ).map (fun v => np_expm1 (np_clip v (-10) 20)))))) ∧
      meta.validation_mape = pyRoundR 2
        (calculate_mape
          (castR ((processed_y df44).drop ((processed_y df44).length - VALIDATION_DAYS)))
          (([] : List ℝ).map (fun v => np_expm1 (np_clip v (-10) 20)))) := by
  apply C6_accuracy_definition
  · norm_num [validate_data_quality, df44, listMean, MIN_TRAINING_DAYS,
      minNonZeroDaysRatio, Except.isOk, Except.toBool]
  · rw [processed_y_length]
    decide

/-- **C8 (confirmed).**  For every training window passing the quality
gate with positive mean target, the metadata records
`cv = round(std/mean, 4)` computed over the (preprocessed) window, and
the changepoint prior scale equals the tier base scale multiplied by 0.8
when `cv < 0.25`, by 1.2 when `cv > 0.5`, unchanged otherwise, clamped to
`[0.01, 0.15]`. -/
theorem C8_dynamic_changepoint_scale (today : Int) (df : List Row) (pt pv : List ℝ)
    (hok : (validate_data_quality today df).isOk = true)
    (hmean : 0 < listMean (processed_y df)) :
    ∃ meta, train_model_slice today df pt pv = Except.ok meta ∧
      meta.cv = pyRoundR 4
        (sampleStdR (castR (processed_y df)) / (listMean (processed_y df) : ℝ)) ∧
      meta.changepoint_prior_scale =
        max (1 / 100) (min
          (if sampleStdR (castR (processed_y df)) / (listMean (processed_y df) : ℝ)
              < 1 / 4 then
            ((get_prophet_params (processed_y df).length).changepoint_prior_scale : ℝ)
              * (8 / 10)
          else if (1 : ℝ) / 2 <
              sampleStdR (castR (processed_y df)) / (listMean (processed_y df) : ℝ) then
            ((get_prophet_params (processed_y df).length).changepoint_prior_scale : ℝ)
              * (12 / 10)
          else ((get_prophet_params (processed_y df).length).changepoint_prior_scale : ℝ))
          (15 / 100)) := by
  cases hv : validate_data_quality today df with
  | error e => rw [hv] at hok; simp [Except.isOk, Except.toBool] at hok
  | ok q =>
    refine ⟨_, train_model_slice_ok today df pt pv q hv, ?_, ?_⟩
    · show pyRoundR 4 (calculate_dynamic_changepoint_scale (processed_y df)
        (get_prophet_params (processed_y df).length).changepoint_prior_scale).2 = _
      unfold calculate_dynamic_changepoint_scale
      dsimp only
      rw [if_pos hmean]
    · show (calculate_dynamic_changepoint_scale (processed_y df)
        (get_prophet_params (processed_y df).length).changepoint_prior_scale).1 = _
      unfold calculate_dynamic_changepoint_scale
      dsimp only
      rw [if_pos hmean]

/-! Evaluation of the preprocessing pipeline on constant frames (used by
the witnesses): clipping and smoothing leave a constant positive target
series unchanged. -/

theorem listMean_replicate (n : Nat) (a : ℚ) (hn : n ≠ 0) :
    listMean (List.replicate n a) = a := by
  unfold listMean
  rw [List.sum_replicate, List.length_replicate, nsmul_eq_mul]
  exact mul_div_cancel_left₀ a (Nat.cast_ne_zero.mpr hn)

theorem insertAsc_replicate_self (k : Nat) (a : ℚ) :
    insertAsc a (List.replicate k a) = List.replicate (k + 1) a := by
  cases k with
  | zero => rfl
  | succ m =>
    rw [List.replicate_succ]
    unfold insertAsc
    rw [if_pos (le_refl a), ← List.replicate_succ, ← List.replicate_succ]

theorem sortAsc_replicate (n : Nat) (a : ℚ) :
    sortAsc (List.replicate n a) = List.replicate n a := by
  unfold sortAsc
  induction n with
  | zero => rfl
  | succ k ih =>
    rw [List.replicate_succ, List.foldr_cons, ih, insertAsc_replicate_self,
      List.replicate_succ]

theorem np_percentile_replicate (n : Nat) (a : ℚ) (q : ℚ) (hn : n ≠ 0)
    (_hq0 : 0 ≤ q) (hq1 : q ≤ 100) :
    np_percentile (List.replicate n a) q = a := by
  unfold np_percentile
  rw [sortAsc_replicate]
  dsimp only
  rw [List.length_replicate]
  have hn1 : (1 : ℚ) ≤ (n : ℚ) := by
    exact_mod_cast Nat.one_le_iff_ne_zero.mpr hn
  have hle : ((n : ℚ) - 1) * q / 100 ≤ (n : ℚ) - 1 := by
    rw [div_le_iff₀ (by norm_num : (0 : ℚ) < 100)]
    nlinarith
  have hlo : (⌊((n : ℚ) - 1) * q / 100⌋).toNat < n := by
    have h2 : (⌊((n : ℚ) - 1) * q / 100⌋ : ℚ) ≤ (n : ℚ) - 1 :=
      le_trans (Int.floor_le _) hle
    have h3 : ⌊((n : ℚ) - 1) * q / 100⌋ ≤ (n : ℤ) - 1 := by exact_mod_cast h2
    omega
  rw [List.getElem?_replicate, List.getElem?_replicate, if_pos hlo]
  by_cases hlo1 : (⌊((n : ℚ) - 1) * q / 100⌋).toNat + 1 < n
  · rw [if_pos hlo1]
    simp
  · rw [if_neg hlo1]
    simp

theorem handle_outliers_const (df : List Row) (n : Nat) (a : ℚ)
    (hmap : df.map Row.y = List.replicate n a) (hn : n ≠ 0) :
    (handle_outliers df).map Row.y = List.replicate n a := by
  unfold handle_outliers
  rw [if_neg (by decide : ¬ OUTLIER_HANDLING = "none"),
    if_pos (by decide : OUTLIER_HANDLING = "clip")]
  dsimp only
  rw [hmap,
    np_percentile_replicate n a _ hn (by norm_num [OUTLIER_CLIP_PERCENTILE])
      (by norm_num [OUTLIER_CLIP_PERCENTILE]),
    np_percentile_replicate n a _ hn (by norm_num [OUTLIER_CLIP_PERCENTILE])
      (by norm_num [OUTLIER_CLIP_PERCENTILE]),
    List.map_map]
  rw [show (Row.y ∘ fun r => { r with y := min (max r.y a) a }) =
    ((fun v => min (max v a) a) ∘ Row.y) from rfl]
  rw [← List.map_map, hmap, List.map_replicate]
  simp

theorem apply_smoothing_y_replicate (n : Nat) (a : ℚ) (ha : 0 < a) :
    apply_smoothing_y (List.replicate n a) = List.replicate n a := by
  unfold apply_smoothing_y
  dsimp only
  rw [List.length_replicate]
  have hsm : (List.range n).map
      (fun i => listMean (((List.replicate n a).take (i + 2)).drop (i - 1)))
      = List.replicate n a := by
    have hpt : ∀ i ∈ List.range n,
        listMean (((List.replicate n a).take (i + 2)).drop (i - 1)) = a := by
      intro i hi
      have hin : i < n := List.mem_range.mp hi
      rw [List.take_replicate, List.drop_replicate]
      apply listMean_replicate
      omega
    rw [List.map_congr_left hpt, List.map_const', List.length_range]
  rw [hsm]
  cases n with
  | zero => simp [listMean]
  | succ k =>
    rw [listMean_replicate _ _ (Nat.succ_ne_zero k), if_pos ha, List.map_replicate,
      div_self (ne_of_gt ha), mul_one]

theorem processed_y_const (df : List Row) (n : Nat) (a : ℚ)
    (hmap : df.map Row.y = List.replicate n a) (ha : 0 < a) (hn : n ≠ 0) :
    processed_y df = List.replicate n a := by
  unfold processed_y
  rw [if_pos (by decide : APPLY_SMOOTHING = true),
    handle_outliers_const df n a hmap hn, apply_smoothing_y_replicate n a ha]

theorem df44_map_y : df44.map Row.y = List.replicate 44 10 := by rfl

/-- Witness for `C8_dynamic_changepoint_scale` on the 44-day constant
frame (whose preprocessed mean is 10). -/
theorem C8_dynamic_changepoint_scale_witness :
    ∃ meta, train_model_slice 44 df44 [] [] = Except.ok meta ∧
      meta.cv = pyRoundR 4
        (sampleStdR (castR (processed_y df44)) / (listMean (processed_y df44) : ℝ)) ∧
      meta.changepoint_prior_scale =
        max (1 / 100) (min
          (if sampleStdR (castR (processed_y df44)) / (listMean (processed_y df44) : ℝ)
              < 1 / 4 then
            ((get_prophet_params (processed_y df44).length).changepoint_prior_scale : ℝ)
              * (8 / 10)
          else if (1 : ℝ) / 2 <
              sampleStdR (castR (processed_y df44)) / (listMean (processed_y df44) : ℝ) then
            ((get_prophet_params (processed_y df44).length).changepoint_prior_scale : ℝ)
              * (12 / 10)
          else ((get_prophet_params (processed_y df44).length).changepoint_prior_scale : ℝ))
          (15 / 100)) := by
  apply C8_dynamic_changepoint_scale
  · norm_num [validate_data_quality, df44, listMean, MIN_TRAINING_DAYS,
      minNonZeroDaysRatio, Except.isOk, Except.toBool]
  · rw [processed_y_const df44 44 10 df44_map_y (by norm_num) (by norm_num),
      listMean_replicate 44 10 (by norm_num)]
    norm_num

/-- **C9, amended.**  For a non-empty historical window with positive
sample standard deviation (and non-negative mean, as sales are), every
forecast value `v` whose z-score exceeds the spike threshold 3 produces a
spike warning, and its value in the corrected frame is
`clip(v, max(0, μ-3σ), μ+3σ)` — which always lies inside that interval —
*further raised to* `max(1, 0.5·hist_min)` by the subsequent
zero/negative correction whenever some spike-corrected value is `≤ 0`.
That floor can exceed `μ+3σ`, so the final value is only guaranteed
inside the interval when the zero/negative correction does not fire
(see the counterexample). -/
theorem C9_spike_correction_amended (yhat hist : List ℝ) (tf : ℝ)
    (hne : hist ≠ []) (hσ : 0 < sampleStdR hist) (hμ : 0 ≤ listMeanR hist)
    (i : Nat) (v : ℝ) (hv : yhat[i]? = some v)
    (hspike : 3 < |v - listMeanR hist| / sampleStdR hist) :
    FWarning.spike ∈ (validate_forecast_results yhat hist 3 tf).2.1 ∧
    ((validate_forecast_results yhat hist 3 tf).2.2)[i]? = some
      (if ∃ w ∈ spikeClipped (listMeanR hist) (sampleStdR hist) 3 yhat, w ≤ 0 then
        max (min (max v (max 0 (listMeanR hist - 3 * sampleStdR hist)))
              (listMeanR hist + 3 * sampleStdR hist))
          (max 1 (minR hist * (1 / 2)))
      else
        min (max v (max 0 (listMeanR hist - 3 * sampleStdR hist)))
          (listMeanR hist + 3 * sampleStdR hist)) ∧
    max 0 (listMeanR hist - 3 * sampleStdR hist) ≤
      min (max v (max 0 (listMeanR hist - 3 * sampleStdR hist)))
        (listMeanR hist + 3 * sampleStdR hist) ∧
    min (max v (max 0 (listMeanR hist - 3 * sampleStdR hist)))
      (listMeanR hist + 3 * sampleStdR hist) ≤
      listMeanR hist + 3 * sampleStdR hist := by
  have hF : hist.isEmpty = false := List.isEmpty_eq_false.mpr hne
  have hstats : forecastStats yhat hist =
      (listMeanR hist, sampleStdR hist, maxR hist, minR hist) := by
    unfold forecastStats
    rw [hF]
    rfl
  have hmemv : v ∈ yhat := List.getElem?_mem hv
  have hx1 : (spikeClipped (listMeanR hist) (sampleStdR hist) 3 yhat)[i]? =
      some (min (max v (max 0 (listMeanR hist - 3 * sampleStdR hist)))
        (listMeanR hist + 3 * sampleStdR hist)) := by
    unfold spikeClipped
    rw [List.getElem?_map, hv]
    simp only [Option.map_some']
    rw [if_pos hspike]
  unfold validate_forecast_results
  rw [hstats]
  dsimp only
  rw [if_pos hσ,
    if_pos (⟨hσ, v, hmemv, hspike⟩ : 0 < sampleStdR hist ∧
      ∃ v' ∈ yhat, 3 < |v' - listMeanR hist| / sampleStdR hist)]
  refine ⟨?_, ?_, ?_, ?_⟩
  · split_ifs <;> simp
  · by_cases hz : ∃ w ∈ spikeClipped (listMeanR hist) (sampleStdR hist) 3 yhat, w ≤ 0
    · rw [if_pos hz, if_pos hz]
      unfold zeroFloored
      rw [List.getElem?_map, hx1]
      rfl
    · rw [if_neg hz, if_neg hz, hx1]
  · refine le_min (le_max_right _ _) (max_le (by linarith) (by linarith))
  · exact min_le_right _ _

/-- Witness for `C9_spike_correction_amended`: history
`[0.55, 0.25, 0.4]` (mean `0.4`, sample std `0.15`), forecast `[5]`
(z-score `≈ 30.7`). -/
theorem C9_spike_correction_amended_witness :
    FWarning.spike ∈
      (validate_forecast_results [5] [11/20, 1/4, 2/5] 3 (1/20)).2.1 ∧
    ((validate_forecast_results [5] [11/20, 1/4, 2/5] 3 (1/20)).2.2)[0]? = some
      (if ∃ w ∈ spikeClipped (listMeanR [11/20, 1/4, 2/5])
          (sampleStdR [11/20, 1/4, 2/5]) 3 [5], w ≤ 0 then
        max (min (max 5 (max 0 (listMeanR [11/20, 1/4, 2/5] -
              3 * sampleStdR [11/20, 1/4, 2/5])))
            (listMeanR [11/20, 1/4, 2/5] + 3 * sampleStdR [11/20, 1/4, 2/5]))
          (max 1 (minR [11/20, 1/4, 2/5] * (1 / 2)))
      else
        min (max 5 (max 0 (listMeanR [11/20, 1/4, 2/5] -
            3 * sampleStdR [11/20, 1/4, 2/5])))
          (listMeanR [11/20, 1/4, 2/5] + 3 * sampleStdR [11/20, 1/4, 2/5])) ∧
    max 0 (listMeanR [11/20, 1/4, 2/5] - 3 * sampleStdR [11/20, 1/4, 2/5]) ≤
      min (max 5 (max 0 (listMeanR [11/20, 1/4, 2/5] -
          3 * sampleStdR [11/20, 1/4, 2/5])))
        (listMeanR [11/20, 1/4, 2/5] + 3 * sampleStdR [11/20, 1/4, 2/5]) ∧
    min (max 5 (max 0 (listMeanR [11/20, 1/4, 2/5] -
        3 * sampleStdR [11/20, 1/4, 2/5])))
      (listMeanR [11/20, 1/4, 2/5] + 3 * sampleStdR [11/20, 1/4, 2/5]) ≤
      listMeanR [11/20, 1/4, 2/5] + 3 * sampleStdR [11/20, 1/4, 2/5] := by
  have hvar : sampleVarR [(11 : ℝ)/20, 1/4, 2/5] = 9/400 := by
    norm_num [sampleVarR, listMeanR]
  have hσ : sampleStdR [(11 : ℝ)/20, 1/4, 2/5] = 3/20 := by
    rw [sampleStdR, hvar, show (9/400 : ℝ) = (3/20)^2 by norm_num,
      Real.sqrt_sq (by norm_num)]
  apply C9_spike_correction_amended [5] [11/20, 1/4, 2/5] (1/20)
    (by simp) (by rw [hσ]; norm_num) (by norm_num [listMeanR]) 0 5 rfl
  rw [hσ]
  norm_num [listMeanR, abs_of_pos]

/-- **C9, counterexample.**  History `[0.55, 0.25, 0.4]` (mean `0.4`,
sample std `0.15`, min `0.25`), forecast `[5, -0.01]`, default thresholds.
The value 5 is a spike (z-score `≈ 30.7 > 3`) and is clipped to
`μ + 3σ = 0.85`; but the mild negative `-0.01` (z-score `≈ 2.7`) then
triggers the zero/negative correction, which floors the whole column at
`max(1, 0.5·0.25) = 1`.  The final corrected frame is `[1, 1]`: the spike
value ends at 1, *outside* `[max(0, μ-3σ), μ+3σ] = [0, 0.85]`, although
the spike warning is returned.  This refutes the claim that every
spike value is clipped into the interval in the corrected frame. -/
theorem C9_spike_interval_counterexample :
    (3 : ℝ) < |(5 : ℝ) - listMeanR [11/20, 1/4, 2/5]| / sampleStdR [11/20, 1/4, 2/5] ∧
    ((validate_forecast_results [5, -1/100] [11/20, 1/4, 2/5] 3 (1/20)).2.2)[0]? =
      some 1 ∧
    FWarning.spike ∈ (validate_forecast_results [5, -1/100] [11/20, 1/4, 2/5] 3 (1/20)).2.1 ∧
    listMeanR [11/20, 1/4, 2/5] + 3 * sampleStdR [11/20, 1/4, 2/5] < 1 := by
  have hμ : listMeanR [(11:ℝ)/20, 1/4, 2/5] = 2/5 := by norm_num [listMeanR]
  have hvar : sampleVarR [(11 : ℝ)/20, 1/4, 2/5] = 9/400 := by
    norm_num [sampleVarR, listMeanR]
  have hσ : sampleStdR [(11 : ℝ)/20, 1/4, 2/5] = 3/20 := by
    rw [sampleStdR, hvar, show (9/400 : ℝ) = (3/20)^2 by norm_num,
      Real.sqrt_sq (by norm_num)]
  have hmax : maxR [(11:ℝ)/20, 1/4, 2/5] = 11/20 := by
    show List.foldl max ((11:ℝ)/20) [1/4, 2/5] = 11/20
    rw [List.foldl_cons, List.foldl_cons, List.foldl_nil,
      max_eq_left (by norm_num), max_eq_left (by norm_num)]
  have hmin : minR [(11:ℝ)/20, 1/4, 2/5] = 1/4 := by
    show List.foldl min ((11:ℝ)/20) [1/4, 2/5] = 1/4
    rw [List.foldl_cons, List.foldl_cons, List.foldl_nil,
      show min ((11:ℝ)/20) (1/4) = 1/4 from min_eq_right (by norm_num),
      min_eq_left (by norm_num)]
  have hstats : forecastStats [5, -1/100] [11/20, 1/4, 2/5] = (2/5, 3/20, 11/20, 1/4) := by
    unfold forecastStats
    rw [if_neg (by simp)]
    rw [hμ, hσ, hmax, hmin]
  have habs1 : |(5:ℝ) - 2/5| = 23/5 := by
    rw [abs_of_pos] <;> norm_num
  have hz5 : (3:ℝ) < |(5:ℝ) - 2/5| / (3/20) := by rw [habs1]; norm_num
  have hxs1 : spikeClipped (2/5) (3/20) 3 [5, -1/100] = [17/20, -1/100] := by
    unfold spikeClipped
    simp only [List.map_cons, List.map_nil]
    congr 1
    · rw [if_pos hz5]
      rw [show ((2:ℝ)/5 - 3 * (3/20)) = -(1/20) by norm_num,
        show ((2:ℝ)/5 + 3 * (3/20)) = 17/20 by norm_num]
      rw [max_eq_left (by norm_num : -(1/20) ≤ (0:ℝ)),
        max_eq_left (by norm_num : (0:ℝ) ≤ (5:ℝ)),
        min_eq_right (by norm_num : (17/20:ℝ) ≤ 5)]
    · congr 1
      rw [if_neg]
      rw [show ((-1/100:ℝ) - 2/5) = -(41/100) by norm_num, abs_neg,
        abs_of_pos (by norm_num)]
      norm_num
  have hflat : ¬ flattenTriggered [(17:ℝ)/20, -1/100] (1/20) := by
    intro h
    have := h.1
    norm_num at this
  have hzero : ∃ v ∈ [(17:ℝ)/20, -1/100], v ≤ 0 := ⟨-1/100, by simp, by norm_num⟩
  have hfloor : zeroFloored [(17:ℝ)/20, -1/100] (max 1 ((1/4) * (1/2))) = [1, 1] := by
    rw [show max (1:ℝ) ((1/4) * (1/2)) = 1 from max_eq_left (by norm_num)]
    unfold zeroFloored
    simp only [List.map_cons, List.map_nil]
    rw [max_eq_right (by norm_num : (17:ℝ)/20 ≤ 1),
      max_eq_right (by norm_num : (-1/100:ℝ) ≤ 1)]
  have hmain : validate_forecast_results [5, -1/100] [11/20, 1/4, 2/5] 3 (1/20) =
      (true, [FWarning.spike, FWarning.zeroNeg], [1, 1]) := by
    unfold validate_forecast_results
    rw [hstats]
    dsimp only
    rw [if_pos (by norm_num : (0:ℝ) < 3/20), hxs1]
    rw [if_pos (⟨by norm_num, 5, by simp, hz5⟩ : (0:ℝ) < 3/20 ∧
      ∃ v ∈ [(5:ℝ), -1/100], 3 < |v - 2/5| / (3/20))]
    rw [if_neg hflat, if_pos hzero, if_pos hzero, hfloor]
    rw [show listMeanR [(1:ℝ), 1] = 1 by norm_num [listMeanR]]
    rw [if_neg (by norm_num : ¬ (11:ℝ)/20 * 3 < 1)]
    rw [if_neg (by norm_num : ¬ ((1:ℝ) < 1/4 * (3/10) ∧ (0:ℝ) < 1/4))]
    rfl
  refine ⟨by rw [hμ, hσ]; exact hz5, ?_, ?_, ?_⟩
  · rw [hmain]
    rfl
  · rw [hmain]
    simp
  · rw [hμ, hσ]
    norm_num

end Siprems
